import Mathlib

set_option maxHeartbeats 1000000
set_option maxRecDepth 100000

/-!
Shallow embedding of the midi crate (Kyle-Gagnon-99/midi) in Lean 4.

Conventions used throughout this development:

* Byte buffers are `List Nat`; every read through `byteAt` or `sliceRange`
  normalises with `% 256`, matching the `u8` element type of Rust slices.
* Rust functions that can hit an out-of-bounds slice index (a Rust panic)
  return `Outcome.panicked`; functions returning `Result<_, MidiError>`
  return `Outcome.error` or `Outcome.ok`.  Loops are run on explicit fuel
  that dominates the number of iterations of the Rust loop; exhausted fuel
  is reported as `Outcome.diverged` (the Rust loop would not have returned).
* `u32` arithmetic is modelled as `Nat` with `% 4294967296` where the Rust
  code can wrap; `u8` counters likewise use `% 256`.
* Error payload strings carried by the Rust enums are elided: only the
  constructor is represented.
* `std::time::Duration` values produced by `calculate_time_duration`, and
  the `f64` BPM stored by `SetTempoEvent`, are modelled as exact fractions
  (`Frac`, a numerator/denominator pair as computed by the source formula,
  with `Frac.toRat` giving the represented value); the Rust code rounds
  through `f32`/`f64`, which none of the verified claims depend on.
* `Instant::now()` fields (`current_time`) are not represented: they carry
  no parse information.
-/

/-- Error taxonomy of `src/midi_error.rs` (`ParseError`), message strings elided. -/
inductive ParseError where
  | InvalidHeader
  | InvalidNumOfTracks
  | InvalidFileFormat
  | InvalidFPS
  | InvalidEventBytes
  | NotImplemented
  deriving DecidableEq, Repr

/-- Error taxonomy of `src/midi_error.rs` (`EventError`), message strings elided. -/
inductive EventError where
  | InvalidEvent
  | InvalidKeySignature
  deriving DecidableEq, Repr

/-- Error taxonomy of `src/midi_error.rs` (`MidiError`).  The `IoError` and
`FileError` constructors concern file input and are outside the parsing core. -/
inductive MidiError where
  | FromUtf8Error
  | ParseError (e : ParseError)
  | EventError (e : EventError)
  deriving DecidableEq, Repr

/-- Result of running a piece of Rust code that may return a value, return an
error, panic (out-of-bounds indexing or arithmetic overflow), or loop forever. -/
inductive Outcome (α : Type) where
  | panicked
  | diverged
  | error (e : MidiError)
  | ok (v : α)
  deriving DecidableEq, Repr

/-- Sequencing of fallible Rust computations: errors and panics short-circuit. -/
def Outcome.bind {α β : Type} : Outcome α → (α → Outcome β) → Outcome β
  | .panicked, _ => .panicked
  | .diverged, _ => .diverged
  | .error e, _ => .error e
  | .ok v, f => f v

/-- Lift a Rust `Result` (no panic possible) into `Outcome`; models the `?` operator. -/
def Outcome.ofExcept {α : Type} : Except MidiError α → Outcome α
  | .error e => .error e
  | .ok v => .ok v

/-- Whether an outcome is a successful return. -/
def Outcome.isOk {α : Type} : Outcome α → Bool
  | .ok _ => true
  | _ => false

/-- Rust slice indexing `data[i]` on a `&[u8]`: the byte when in bounds, a panic
otherwise.  The `% 256` realises the `u8` element type. -/
def byteAt (data : List Nat) (i : Nat) : Outcome Nat :=
  match data.get? i with
  | some b => .ok (b % 256)
  | none => .panicked

/-- Rust range slicing `&data[a..b]` on a `&[u8]` (with `a ≤ b`): the sub-slice
when `b` is in bounds, a panic otherwise. -/
def sliceRange (data : List Nat) (a b : Nat) : Outcome (List Nat) :=
  if b ≤ data.length then .ok (((data.drop a).take (b - a)).map (· % 256))
  else .panicked

/-- Embedding of `u16::from_be_bytes([a, b])` on bytes already reduced mod 256. -/
def u16be (a b : Nat) : Nat := a * 256 + b

/-- Embedding of `u32::from_be_bytes([a, b, c, d])` on bytes already reduced mod 256. -/
def u32be (a b c d : Nat) : Nat := ((a * 256 + b) * 256 + c) * 256 + d

/-- Embedding of `is_msb_zero` from `src/lib.rs`: `(byte & 0b1000_0000) == 0`. -/
def is_msb_zero (byte : Nat) : Bool := byte &&& 0x80 == 0

/-- Modulus of `u32` arithmetic. -/
def U32MOD : Nat := 4294967296

/-- Loop body of `from_vlq_to_bytes` (`src/metaevents.rs` lines 81-98): emit the
low 7 bits, shift, set the continuation bit when more bits remain, recurse. -/
def from_vlq_to_bytes_go (value : Nat) : List Nat :=
  let byte := value &&& 0x7F
  let value2 := value >>> 7
  if h : value2 > 0 then (byte ||| 0x80) :: from_vlq_to_bytes_go value2 else [byte]
termination_by value
decreasing_by
  have hv : value >>> 7 = value / 128 := by
    simp [Nat.shiftRight_eq_div_pow]
  exact hv ▸ Nat.div_lt_self (by omega) (by omega)

/-- Embedding of `from_vlq_to_bytes` (`src/metaevents.rs`): VLQ encoder emitting the
least-significant 7-bit group first.  The argument is a `u32`. -/
def from_vlq_to_bytes (delta_time : Nat) : List Nat :=
  from_vlq_to_bytes_go (delta_time % U32MOD)

/-- Loop body of `from_bytes_to_vlq` (`src/metaevents.rs` lines 108-125):
`delta_time |= (byte & 0x7F) << shift` with `shift` growing by 7 per byte, so
the first byte lands in the least significant bits.  `num_of_bytes` is a `u8`. -/
def from_bytes_to_vlq_go : List Nat → Nat → Nat → Nat → Nat × Nat
  | [], delta_time, _, num_of_bytes => (delta_time, num_of_bytes)
  | b :: rest, delta_time, shift, num_of_bytes =>
    let c := b % 256
    let delta_time2 := (delta_time ||| ((c &&& 0x7F) <<< shift)) % U32MOD
    let num_of_bytes2 := (num_of_bytes + 1) % 256
    if c &&& 0x80 = 0 then (delta_time2, num_of_bytes2)
    else from_bytes_to_vlq_go rest delta_time2 (shift + 7) num_of_bytes2

/-- Embedding of `from_bytes_to_vlq` (`src/metaevents.rs`): VLQ decoder; returns the decoded
value and the number of bytes consumed. -/
def from_bytes_to_vlq (track_data : List Nat) : Nat × Nat :=
  from_bytes_to_vlq_go track_data 0 0 0

/-- Embedding of `TimeDivision` from `src/metadata.rs`. -/
inductive TimeDivision where
  | PulsesPerQuarterNote (pulses : Nat)
  | SMPTE (fps ticks_per_frame : Nat)
  deriving DecidableEq, Repr

/-- Embedding of `FileFormat` from `src/metadata.rs`. -/
inductive FileFormat where
  | SINGLE_TRACK
  | MULTI_TRACK
  | MULTI_SONG
  deriving DecidableEq, Repr

/-- Embedding of `TimeSignature` from `src/metaevents/time_signature.rs` (its `new` always
returns `Ok`, so it is modelled as a plain constructor). -/
structure TimeSignature where
  numerator : Nat
  denominator : Nat
  deriving DecidableEq, Repr

/-- An exact fraction `num / den` of naturals, used to carry the values the
Rust code computes in floating point (`Duration` seconds and BPM).  The pair
is stored as the source formula produces it, without reduction. -/
structure Frac where
  num : Nat
  den : Nat
  deriving DecidableEq, Repr

/-- The rational value represented by a `Frac`. -/
def Frac.toRat (f : Frac) : Rat := (f.num : Rat) / (f.den : Rat)

/-- Embedding of `calculate_time_duration` (`src/metaevents.rs` lines 138-150), with the
`f32` steps `(delta / tpqn) * (µs_per_quarter / 1_000_000)` carried out
exactly as the fraction `delta * µs_per_quarter / (tpqn * 1_000_000)`.
`tempo` is beats per minute; the Rust `60_000_000 / tempo` is integer `u32`
division.  In the SMPTE branch the Rust `u8` product `fps * ticks_per_frame`
is modelled with wrapping. -/
def calculate_time_duration (delta_time : Nat) (time_division : TimeDivision) (tempo : Nat) : Frac :=
  let ticks_per_quarter_note : Nat :=
    match time_division with
    | .PulsesPerQuarterNote pulses => pulses
    | .SMPTE fps ticks_per_frame => fps * ticks_per_frame % 256 / 4
  let microseconds_per_quarter_note : Nat := 60000000 / tempo
  { num := delta_time * microseconds_per_quarter_note,
    den := ticks_per_quarter_note * 1000000 }

/-- Embedding of `microseconds_to_bpm` (`src/metaevents.rs`): `60_000_000.0 / µs`, carried
exactly as a fraction instead of `f64`. -/
def microseconds_to_bpm (microseconds : Nat) : Frac :=
  { num := 60000000, den := microseconds }

/-- Embedding of `Mode` from `src/metaevents/key_signature.rs`. -/
inductive Mode where
  | Major
  | Minor
  deriving DecidableEq, Repr

/-- Embedding of `Accidentals` from `src/metaevents/key_signature.rs`. -/
inductive Accidentals where
  | Flat
  | Natural
  | Sharp
  deriving DecidableEq, Repr

/-- Embedding of `Key` from `src/metaevents/key_signature.rs`. -/
inductive Key where
  | C
  | D
  | E
  | F
  | G
  | A
  | B
  deriving DecidableEq, Repr

/-- Embedding of `get_key_signature_from_num_of_accidentals` (`src/metaevents/key_signature.rs`
lines 197-238): clockwise / counterclockwise circle of fifths with the count as
a signed `i8`. -/
def get_key_signature_from_num_of_accidentals (byte : Int) : Except MidiError (Key × Accidentals) :=
  if byte = 0 then .ok (.C, .Natural)
  else if byte > 0 then
    if byte = 1 then .ok (.G, .Natural)
    else if byte = 2 then .ok (.D, .Natural)
    else if byte = 3 then .ok (.A, .Natural)
    else if byte = 4 then .ok (.E, .Natural)
    else if byte = 5 then .ok (.B, .Natural)
    else if byte = 6 then .ok (.F, .Sharp)
    else if byte = 7 then .ok (.C, .Sharp)
    else .error (.EventError .InvalidKeySignature)
  else
    if byte = -1 then .ok (.F, .Natural)
    else if byte = -2 then .ok (.B, .Flat)
    else if byte = -3 then .ok (.E, .Flat)
    else if byte = -4 then .ok (.A, .Flat)
    else if byte = -5 then .ok (.D, .Flat)
    else if byte = -6 then .ok (.G, .Flat)
    else if byte = -7 then .ok (.C, .Flat)
    else .error (.EventError .InvalidKeySignature)

/-- Embedding of `get_num_of_accidentals_from_key_signature` (`src/metaevents/key_signature.rs`
lines 240-266): total inverse over all 21 `(Key, Accidentals)` pairs. -/
def get_num_of_accidentals_from_key_signature (key : Key) (accidental : Accidentals) : Int :=
  match key, accidental with
  | .C, .Natural => 0
  | .G, .Natural => 1
  | .D, .Natural => 2
  | .A, .Natural => 3
  | .E, .Natural => 4
  | .B, .Natural => 5
  | .F, .Sharp => 6
  | .C, .Sharp => 7
  | .F, .Natural => -1
  | .B, .Flat => -2
  | .E, .Flat => -3
  | .A, .Flat => -4
  | .D, .Flat => -5
  | .G, .Flat => -6
  | .C, .Flat => -7
  | .D, .Sharp => -3
  | .E, .Sharp => -1
  | .F, .Flat => 4
  | .G, .Sharp => -4
  | .A, .Sharp => -2
  | .B, .Sharp => 0

/-- Embedding of `KeySignature` from `src/metaevents/key_signature.rs`. -/
structure KeySignature where
  key : Key
  accidental : Accidentals
  mode : Mode
  num_of_accidentals : Int
  deriving DecidableEq, Repr

/-- Embedding of `KeySignature::new`: stores the pair and recomputes the signed count. -/
def KeySignature.new (key : Key) (accidental : Accidentals) (mode : Mode) : KeySignature :=
  { key := key, accidental := accidental, mode := mode,
    num_of_accidentals := get_num_of_accidentals_from_key_signature key accidental }

/-- Closed sum of the event structs implementing the `Event` trait.  Each
constructor carries the struct fields of its Rust counterpart in declaration
order, followed by the common `event_size`, `delta_time` and `time_duration`
fields.  Text payloads are the UTF-8 byte content of the stored `String`.
The constructors `programChangeEvent`, `textEvent`, `instrumentNameEvent`,
`lyricEvent` and `cuePointEvent` correspond to modules declared in
`src/messages.rs` / `src/metaevents.rs` whose files are absent from the
sources; their fields are modelled from the spec (section 3.2 and 4.4). -/
inductive MidiEvent where
  | noteOnEvent (midi_note velocity channel : Nat)
      (event_size delta_time : Nat) (time_duration : Frac)
  | noteOffEvent (midi_note velocity channel : Nat)
      (event_size delta_time : Nat) (time_duration : Frac)
  | polyphonicKeyPressureEvent (midi_note control_pressure channel : Nat)
      (event_size delta_time : Nat) (time_duration : Frac)
  | controlChangeEvent (contol control_value channel : Nat)
      (event_size delta_time : Nat) (time_duration : Frac)
  | programChangeEvent (program channel : Nat)
      (event_size delta_time : Nat) (time_duration : Frac)
  | channelPressureEvent (pressure_value channel : Nat)
      (event_size delta_time : Nat) (time_duration : Frac)
  | pitchBendChangeEvent (pitch_bend_lsb pitch_bend_msb channel : Nat)
      (event_size delta_time : Nat) (time_duration : Frac)
  | sequenceNumberEvent (sequence_number : Nat)
      (event_size delta_time : Nat) (time_duration : Frac)
  | textEvent (text : List Nat) (text_size : Nat)
      (event_size delta_time : Nat) (time_duration : Frac)
  | copyRightNoticeEvent (copyright_notice : List Nat) (text_size : Nat)
      (event_size delta_time : Nat) (time_duration : Frac)
  | trackNameEvent (track_name : List Nat) (text_size : Nat)
      (event_size delta_time : Nat) (time_duration : Frac)
  | instrumentNameEvent (instrument_name : List Nat) (text_size : Nat)
      (event_size delta_time : Nat) (time_duration : Frac)
  | lyricEvent (lyric : List Nat) (text_size : Nat)
      (event_size delta_time : Nat) (time_duration : Frac)
  | markerEvent (marker : List Nat) (text_size : Nat)
      (event_size delta_time : Nat) (time_duration : Frac)
  | cuePointEvent (cue_point : List Nat) (text_size : Nat)
      (event_size delta_time : Nat) (time_duration : Frac)
  | midiChannelPrefixEvent (midi_channel : Nat)
      (event_size delta_time : Nat) (time_duration : Frac)
  | midiPortEvent (midi_port : Nat)
      (event_size delta_time : Nat) (time_duration : Frac)
  | endOfTrackEvent (event_size delta_time : Nat) (time_duration : Frac)
  | setTempoEvent (tempo : Frac)
      (event_size delta_time : Nat) (time_duration : Frac)
  | smpteOffsetEvent (hour minute second frame_rate fractional_frames : Nat)
      (event_size delta_time : Nat) (time_duration : Frac)
  | timeSignatureEvent (numerator denominator metronome_clicks num_of_32nd_notes_per_quarter : Nat)
      (event_size delta_time : Nat) (time_duration : Frac)
  | keySignatureEvent (key_signature : KeySignature)
      (event_size delta_time : Nat) (time_duration : Frac)
  | sequencerSpecificEvent (data : List Nat) (text_size : Nat)
      (event_size delta_time : Nat) (time_duration : Frac)
  deriving DecidableEq, Repr

/-- The `Event::get_event_size` trait method: each struct returns its stored
`event_size` field. -/
def MidiEvent.get_event_size : MidiEvent → Nat
  | .noteOnEvent _ _ _ s _ _ => s
  | .noteOffEvent _ _ _ s _ _ => s
  | .polyphonicKeyPressureEvent _ _ _ s _ _ => s
  | .controlChangeEvent _ _ _ s _ _ => s
  | .programChangeEvent _ _ s _ _ => s
  | .channelPressureEvent _ _ s _ _ => s
  | .pitchBendChangeEvent _ _ _ s _ _ => s
  | .sequenceNumberEvent _ s _ _ => s
  | .textEvent _ _ s _ _ => s
  | .copyRightNoticeEvent _ _ s _ _ => s
  | .trackNameEvent _ _ s _ _ => s
  | .instrumentNameEvent _ _ s _ _ => s
  | .lyricEvent _ _ s _ _ => s
  | .markerEvent _ _ s _ _ => s
  | .cuePointEvent _ _ s _ _ => s
  | .midiChannelPrefixEvent _ s _ _ => s
  | .midiPortEvent _ s _ _ => s
  | .endOfTrackEvent s _ _ => s
  | .setTempoEvent _ s _ _ => s
  | .smpteOffsetEvent _ _ _ _ _ s _ _ => s
  | .timeSignatureEvent _ _ _ _ s _ _ => s
  | .keySignatureEvent _ s _ _ => s
  | .sequencerSpecificEvent _ _ s _ _ => s

/-- The `Event::get_delta_time` trait method. -/
def MidiEvent.get_delta_time : MidiEvent → Nat
  | .noteOnEvent _ _ _ _ d _ => d
  | .noteOffEvent _ _ _ _ d _ => d
  | .polyphonicKeyPressureEvent _ _ _ _ d _ => d
  | .controlChangeEvent _ _ _ _ d _ => d
  | .programChangeEvent _ _ _ d _ => d
  | .channelPressureEvent _ _ _ d _ => d
  | .pitchBendChangeEvent _ _ _ _ d _ => d
  | .sequenceNumberEvent _ _ d _ => d
  | .textEvent _ _ _ d _ => d
  | .copyRightNoticeEvent _ _ _ d _ => d
  | .trackNameEvent _ _ _ d _ => d
  | .instrumentNameEvent _ _ _ d _ => d
  | .lyricEvent _ _ _ d _ => d
  | .markerEvent _ _ _ d _ => d
  | .cuePointEvent _ _ _ d _ => d
  | .midiChannelPrefixEvent _ _ d _ => d
  | .midiPortEvent _ _ d _ => d
  | .endOfTrackEvent _ d _ => d
  | .setTempoEvent _ _ d _ => d
  | .smpteOffsetEvent _ _ _ _ _ _ d _ => d
  | .timeSignatureEvent _ _ _ _ _ d _ => d
  | .keySignatureEvent _ _ d _ => d
  | .sequencerSpecificEvent _ _ _ d _ => d

/-- The `Event::get_time_duration` trait method. -/
def MidiEvent.get_time_duration : MidiEvent → Frac
  | .noteOnEvent _ _ _ _ _ t => t
  | .noteOffEvent _ _ _ _ _ t => t
  | .polyphonicKeyPressureEvent _ _ _ _ _ t => t
  | .controlChangeEvent _ _ _ _ _ t => t
  | .programChangeEvent _ _ _ _ t => t
  | .channelPressureEvent _ _ _ _ t => t
  | .pitchBendChangeEvent _ _ _ _ _ t => t
  | .sequenceNumberEvent _ _ _ t => t
  | .textEvent _ _ _ _ t => t
  | .copyRightNoticeEvent _ _ _ _ t => t
  | .trackNameEvent _ _ _ _ t => t
  | .instrumentNameEvent _ _ _ _ t => t
  | .lyricEvent _ _ _ _ t => t
  | .markerEvent _ _ _ _ t => t
  | .cuePointEvent _ _ _ _ t => t
  | .midiChannelPrefixEvent _ _ _ t => t
  | .midiPortEvent _ _ _ t => t
  | .endOfTrackEvent _ _ t => t
  | .setTempoEvent _ _ _ t => t
  | .smpteOffsetEvent _ _ _ _ _ _ _ t => t
  | .timeSignatureEvent _ _ _ _ _ _ t => t
  | .keySignatureEvent _ _ _ t => t
  | .sequencerSpecificEvent _ _ _ _ t => t

/-- The `Event::is_running_status_allowed` trait method.  Values are the
constants returned by each Rust impl: note on/off, polyphonic key pressure,
control change and pitch bend return `true`; `ChannelPressureEvent` returns
`false` in the source (`src/messages/channel_pressure.rs` line 38); every
meta-event returns `false`.  `programChangeEvent` is modelled from the spec
table (running status: yes). -/
def MidiEvent.is_running_status_allowed : MidiEvent → Bool
  | .noteOnEvent _ _ _ _ _ _ => true
  | .noteOffEvent _ _ _ _ _ _ => true
  | .polyphonicKeyPressureEvent _ _ _ _ _ _ => true
  | .controlChangeEvent _ _ _ _ _ _ => true
  | .programChangeEvent _ _ _ _ _ => true
  | .channelPressureEvent _ _ _ _ _ => false
  | .pitchBendChangeEvent _ _ _ _ _ _ => true
  | _ => false

/-- The `Event::event_type` trait method: the per-module constant.  Note the
source constants faithfully reproduced here: `PitchBendChangeEvent` uses
`0xA0` (`src/messages/pitch_bend_change.rs` line 15, duplicating the
polyphonic key pressure nibble) and `SequenceNumber` uses `0x20`
(`src/metaevents/sequence_number.rs` line 12). -/
def MidiEvent.event_type : MidiEvent → Nat
  | .noteOnEvent _ _ _ _ _ _ => 0x90
  | .noteOffEvent _ _ _ _ _ _ => 0x80
  | .polyphonicKeyPressureEvent _ _ _ _ _ _ => 0xA0
  | .controlChangeEvent _ _ _ _ _ _ => 0xB0
  | .programChangeEvent _ _ _ _ _ => 0xC0
  | .channelPressureEvent _ _ _ _ _ => 0xD0
  | .pitchBendChangeEvent _ _ _ _ _ _ => 0xA0
  | .sequenceNumberEvent _ _ _ _ => 0x20
  | .textEvent _ _ _ _ _ => 0x01
  | .copyRightNoticeEvent _ _ _ _ _ => 0x02
  | .trackNameEvent _ _ _ _ _ => 0x03
  | .instrumentNameEvent _ _ _ _ _ => 0x04
  | .lyricEvent _ _ _ _ _ => 0x05
  | .markerEvent _ _ _ _ _ => 0x06
  | .cuePointEvent _ _ _ _ _ => 0x07
  | .midiChannelPrefixEvent _ _ _ _ => 0x20
  | .midiPortEvent _ _ _ _ => 0x21
  | .endOfTrackEvent _ _ _ => 0x2F
  | .setTempoEvent _ _ _ _ => 0x51
  | .smpteOffsetEvent _ _ _ _ _ _ _ _ => 0x54
  | .timeSignatureEvent _ _ _ _ _ _ _ => 0x58
  | .keySignatureEvent _ _ _ _ => 0x59
  | .sequencerSpecificEvent _ _ _ _ _ => 0x7F

/-- The `Event::get_channel` trait method: the stored channel for channel
voice events, `0` for every meta-event. -/
def MidiEvent.get_channel : MidiEvent → Nat
  | .noteOnEvent _ _ c _ _ _ => c
  | .noteOffEvent _ _ c _ _ _ => c
  | .polyphonicKeyPressureEvent _ _ c _ _ _ => c
  | .controlChangeEvent _ _ c _ _ _ => c
  | .programChangeEvent _ c _ _ _ => c
  | .channelPressureEvent _ c _ _ _ => c
  | .pitchBendChangeEvent _ _ c _ _ _ => c
  | _ => 0

/-- Embedding of `CHANNEL_MASK` from `src/messages.rs`. -/
def CHANNEL_MASK : Nat := 0x0F

/-- Embedding of `EVENT_MASK` from `src/messages.rs`. -/
def EVENT_MASK : Nat := 0xF0

/-- Embedding of `NoteOnEvent::from_bytes` (`src/messages/note_on.rs`): status byte carries
the channel in its low nibble, then note and velocity; size 3. -/
def NoteOnEvent.from_bytes (data : List Nat) (delta_time : Nat)
    (time_division : TimeDivision) (tempo : Nat) : Outcome MidiEvent :=
  let time_duration := calculate_time_duration delta_time time_division tempo
  (byteAt data 0).bind fun b0 =>
  (byteAt data 1).bind fun b1 =>
  (byteAt data 2).bind fun b2 =>
  .ok (.noteOnEvent b1 b2 (b0 &&& CHANNEL_MASK) 3 delta_time time_duration)

/-- Embedding of `NoteOnEvent::new_from_status` (`src/messages/note_on.rs` lines 170-186):
builds a note-on for a running-status continuation, reading the note from
`data[0]` and the velocity from `data[1]` of the slice it is handed. -/
def NoteOnEvent.new_from_status (data : List Nat) (delta_time : Nat) (channel : Nat)
    (time_division : TimeDivision) (tempo : Nat) : Outcome MidiEvent :=
  let time_duration := calculate_time_duration delta_time time_division tempo
  (byteAt data 0).bind fun b0 =>
  (byteAt data 1).bind fun b1 =>
  .ok (.noteOnEvent b0 b1 channel 3 delta_time time_duration)

/-- Embedding of `NoteOffEvent::from_bytes` (`src/messages/note_off.rs`): size 3. -/
def NoteOffEvent.from_bytes (data : List Nat) (delta_time : Nat)
    (time_division : TimeDivision) (tempo : Nat) : Outcome MidiEvent :=
  let time_duration := calculate_time_duration delta_time time_division tempo
  (byteAt data 0).bind fun b0 =>
  (byteAt data 1).bind fun b1 =>
  (byteAt data 2).bind fun b2 =>
  .ok (.noteOffEvent b1 b2 (b0 &&& CHANNEL_MASK) 3 delta_time time_duration)

/-- Embedding of `PolyphonicKeyPressureEvent::from_bytes`
(`src/messages/polyphonic_key_pressure.rs`): size 3. -/
def PolyphonicKeyPressureEvent.from_bytes (data : List Nat) (delta_time : Nat)
    (time_division : TimeDivision) (tempo : Nat) : Outcome MidiEvent :=
  let time_duration := calculate_time_duration delta_time time_division tempo
  (byteAt data 0).bind fun b0 =>
  (byteAt data 1).bind fun b1 =>
  (byteAt data 2).bind fun b2 =>
  .ok (.polyphonicKeyPressureEvent b1 b2 (b0 &&& CHANNEL_MASK) 3 delta_time time_duration)

/-- Embedding of `ControlChangeEvent::from_bytes` (`src/messages/control_change.rs`): size 3. -/
def ControlChangeEvent.from_bytes (data : List Nat) (delta_time : Nat)
    (time_division : TimeDivision) (tempo : Nat) : Outcome MidiEvent :=
  let time_duration := calculate_time_duration delta_time time_division tempo
  (byteAt data 0).bind fun b0 =>
  (byteAt data 1).bind fun b1 =>
  (byteAt data 2).bind fun b2 =>
  .ok (.controlChangeEvent b1 b2 (b0 &&& CHANNEL_MASK) 3 delta_time time_duration)

/-- Embedding of `ControlChangeEvent::new_from_status` (`src/messages/control_change.rs`
lines 130-152): running-status continuation; the Rust function hardcodes
`delta_time = 0` (it receives none). -/
def ControlChangeEvent.new_from_status (data : List Nat) (channel : Nat)
    (time_division : TimeDivision) (tempo : Nat) : Outcome MidiEvent :=
  let delta_time : Nat := 0
  let time_duration := calculate_time_duration delta_time time_division tempo
  (byteAt data 0).bind fun b0 =>
  (byteAt data 1).bind fun b1 =>
  .ok (.controlChangeEvent b0 b1 channel 3 delta_time time_duration)

/-- Modelled from the spec: `src/messages.rs` declares `mod program_change`
but `src/messages/program_change.rs` is absent.  Per spec section 3.2, a
Program Change has status nibble `0xC` and one payload byte, hence size 2. -/
def ProgramChangeEvent.from_bytes (data : List Nat) (delta_time : Nat)
    (time_division : TimeDivision) (tempo : Nat) : Outcome MidiEvent :=
  let time_duration := calculate_time_duration delta_time time_division tempo
  (byteAt data 0).bind fun b0 =>
  (byteAt data 1).bind fun b1 =>
  .ok (.programChangeEvent b1 (b0 &&& CHANNEL_MASK) 2 delta_time time_duration)

/-- Embedding of `ChannelPressureEvent::from_bytes` (`src/messages/channel_pressure.rs`):
one payload byte, size 2. -/
def ChannelPressureEvent.from_bytes (data : List Nat) (delta_time : Nat)
    (time_division : TimeDivision) (tempo : Nat) : Outcome MidiEvent :=
  let time_duration := calculate_time_duration delta_time time_division tempo
  (byteAt data 0).bind fun b0 =>
  (byteAt data 1).bind fun b1 =>
  .ok (.channelPressureEvent b1 (b0 &&& CHANNEL_MASK) 2 delta_time time_duration)

/-- Embedding of `PitchBendChangeEvent::from_bytes` (`src/messages/pitch_bend_change.rs`):
lsb then msb, size 3. -/
def PitchBendChangeEvent.from_bytes (data : List Nat) (delta_time : Nat)
    (time_division : TimeDivision) (tempo : Nat) : Outcome MidiEvent :=
  let time_duration := calculate_time_duration delta_time time_division tempo
  (byteAt data 0).bind fun b0 =>
  (byteAt data 1).bind fun b1 =>
  (byteAt data 2).bind fun b2 =>
  .ok (.pitchBendChangeEvent b1 b2 (b0 &&& CHANNEL_MASK) 3 delta_time time_duration)

/-- UTF-8 continuation byte test (`0x80..=0xBF`). -/
def utf8ContByte (b : Nat) : Bool := 0x80 ≤ b && b ≤ 0xBF

/-- UTF-8 validity of a byte sequence, as enforced by Rust
`String::from_utf8` (rejecting overlong forms, surrogates and values above
U+10FFFF). -/
def utf8Valid : List Nat → Bool
  | [] => true
  | b :: rest =>
    if b ≤ 0x7F then utf8Valid rest
    else if 0xC2 ≤ b && b ≤ 0xDF then
      match rest with
      | c1 :: r => utf8ContByte c1 && utf8Valid r
      | [] => false
    else if b = 0xE0 then
      match rest with
      | c1 :: c2 :: r => (0xA0 ≤ c1 && c1 ≤ 0xBF) && utf8ContByte c2 && utf8Valid r
      | _ => false
    else if (0xE1 ≤ b && b ≤ 0xEC) || b = 0xEE || b = 0xEF then
      match rest with
      | c1 :: c2 :: r => utf8ContByte c1 && utf8ContByte c2 && utf8Valid r
      | _ => false
    else if b = 0xED then
      match rest with
      | c1 :: c2 :: r => (0x80 ≤ c1 && c1 ≤ 0x9F) && utf8ContByte c2 && utf8Valid r
      | _ => false
    else if b = 0xF0 then
      match rest with
      | c1 :: c2 :: c3 :: r =>
        (0x90 ≤ c1 && c1 ≤ 0xBF) && utf8ContByte c2 && utf8ContByte c3 && utf8Valid r
      | _ => false
    else if 0xF1 ≤ b && b ≤ 0xF3 then
      match rest with
      | c1 :: c2 :: c3 :: r =>
        utf8ContByte c1 && utf8ContByte c2 && utf8ContByte c3 && utf8Valid r
      | _ => false
    else if b = 0xF4 then
      match rest with
      | c1 :: c2 :: c3 :: r =>
        (0x80 ≤ c1 && c1 ≤ 0x8F) && utf8ContByte c2 && utf8ContByte c3 && utf8Valid r
      | _ => false
    else false
termination_by l => l.length
decreasing_by all_goals simp_wf <;> omega

/-- Embedding of `get_utf8_from_bytes` (`src/metaevents.rs` lines 65-70):
`String::from_utf8(data.to_vec())`, failing with `FromUtf8Error` on invalid
UTF-8; the decoded string is represented by its byte content. -/
def get_utf8_from_bytes (data : List Nat) : Except MidiError (List Nat) :=
  if utf8Valid data then .ok data else .error .FromUtf8Error

/-- Common body of the text-bearing meta-event `from_bytes` impls
(`src/metaevents/marker.rs`, `copyright_notice.rs`, `track_name.rs`, and the
absent `text.rs`, `instrument_name.rs`, `lyric.rs`, `cue_point.rs` whose
bodies are modelled from the spec after their present siblings): skip the
two-byte `0xFF <type>` preface, read a VLQ length, slice the payload, decode
UTF-8, and compute `event_size = 2 + vlq_bytes + payload_len` in `u8`
arithmetic (overflow panics, as in a Rust debug build).  Returns
`(payload_bytes, text_size, event_size)`. -/
def parse_text_payload (data : List Nat) : Outcome (List Nat × Nat × Nat) :=
  let data2 := data.drop 2
  let vlq := from_bytes_to_vlq data2
  let data_length := vlq.1
  let num_of_bytes := vlq.2
  (sliceRange data2 num_of_bytes (num_of_bytes + data_length)).bind fun payload =>
  (Outcome.ofExcept (get_utf8_from_bytes payload)).bind fun text =>
  if 2 + num_of_bytes + text.length % 256 ≥ 256 then .panicked
  else .ok (text, data_length, 2 + num_of_bytes + text.length % 256)

/-- Embedding of `SequenceNumber::from_bytes` (`src/metaevents/sequence_number.rs` lines
85-120): `SEQUENCE_NUMBER_SIZE` is `0x00`, so the initial length check fails
with `InvalidEventBytes` on any non-empty slice, and on an empty slice the
subsequent `data[1]` access panics. -/
def SequenceNumber.from_bytes (data : List Nat) (delta_time : Nat)
    (time_division : TimeDivision) (tempo : Nat) : Outcome MidiEvent :=
  if data.length ≠ 0 then .error (.ParseError .InvalidEventBytes)
  else
    (byteAt data 1).bind fun b1 =>
    (byteAt data 2).bind fun b2 =>
    if b1 ≠ 0x00 ∨ b2 ≠ 0x02 then .error (.ParseError .InvalidEventBytes)
    else
      let time_duration := calculate_time_duration delta_time time_division tempo
      (byteAt data 3).bind fun s0 =>
      (byteAt data 4).bind fun s1 =>
      .ok (.sequenceNumberEvent (u16be s0 s1) 0 delta_time time_duration)

/-- Modelled from the spec: `TextEvent::from_bytes` (module `text` is declared
in `src/metaevents.rs` but `src/metaevents/text.rs` is absent); text-bearing
meta event of type `0x01`, parsed like its present siblings. -/
def TextEvent.from_bytes (data : List Nat) (delta_time : Nat)
    (time_division : TimeDivision) (tempo : Nat) : Outcome MidiEvent :=
  let time_duration := calculate_time_duration delta_time time_division tempo
  (parse_text_payload data).bind fun r =>
  .ok (.textEvent r.1 r.2.1 r.2.2 delta_time time_duration)

/-- Embedding of `CopyRightNoticeEvent::from_bytes` (`src/metaevents/copyright_notice.rs`). -/
def CopyRightNoticeEvent.from_bytes (data : List Nat) (delta_time : Nat)
    (time_division : TimeDivision) (tempo : Nat) : Outcome MidiEvent :=
  let time_duration := calculate_time_duration delta_time time_division tempo
  (parse_text_payload data).bind fun r =>
  .ok (.copyRightNoticeEvent r.1 r.2.1 r.2.2 delta_time time_duration)

/-- Embedding of `TrackNameEvent::from_bytes` (`src/metaevents/track_name.rs`). -/
def TrackNameEvent.from_bytes (data : List Nat) (delta_time : Nat)
    (time_division : TimeDivision) (tempo : Nat) : Outcome MidiEvent :=
  let time_duration := calculate_time_duration delta_time time_division tempo
  (parse_text_payload data).bind fun r =>
  .ok (.trackNameEvent r.1 r.2.1 r.2.2 delta_time time_duration)

/-- Modelled from the spec: `InstrumentNameEvent::from_bytes` (module
`instrument_name` declared but file absent); text-bearing meta event of type
`0x04`. -/
def InstrumentNameEvent.from_bytes (data : List Nat) (delta_time : Nat)
    (time_division : TimeDivision) (tempo : Nat) : Outcome MidiEvent :=
  let time_duration := calculate_time_duration delta_time time_division tempo
  (parse_text_payload data).bind fun r =>
  .ok (.instrumentNameEvent r.1 r.2.1 r.2.2 delta_time time_duration)

/-- Modelled from the spec: `LyricEvent::from_bytes` (module `lyric` declared
but file absent); text-bearing meta event of type `0x05`. -/
def LyricEvent.from_bytes (data : List Nat) (delta_time : Nat)
    (time_division : TimeDivision) (tempo : Nat) : Outcome MidiEvent :=
  let time_duration := calculate_time_duration delta_time time_division tempo
  (parse_text_payload data).bind fun r =>
  .ok (.lyricEvent r.1 r.2.1 r.2.2 delta_time time_duration)

/-- Embedding of `MarkerEvent::from_bytes` (`src/metaevents/marker.rs` lines 80-113). -/
def MarkerEvent.from_bytes (data : List Nat) (delta_time : Nat)
    (time_division : TimeDivision) (tempo : Nat) : Outcome MidiEvent :=
  let time_duration := calculate_time_duration delta_time time_division tempo
  (parse_text_payload data).bind fun r =>
  .ok (.markerEvent r.1 r.2.1 r.2.2 delta_time time_duration)

/-- Modelled from the spec: `CuePointEvent::from_bytes` (module `cue_point`
declared but file absent); text-bearing meta event of type `0x07`. -/
def CuePointEvent.from_bytes (data : List Nat) (delta_time : Nat)
    (time_division : TimeDivision) (tempo : Nat) : Outcome MidiEvent :=
  let time_duration := calculate_time_duration delta_time time_division tempo
  (parse_text_payload data).bind fun r =>
  .ok (.cuePointEvent r.1 r.2.1 r.2.2 delta_time time_duration)

/-- Embedding of `MidiChannelPrefixEvent::from_bytes` (`src/metaevents/midi_channel_prefix.rs`):
reads the channel at offset 3, size 4. -/
def MidiChannelPrefixEvent.from_bytes (data : List Nat) (delta_time : Nat)
    (time_division : TimeDivision) (tempo : Nat) : Outcome MidiEvent :=
  let time_duration := calculate_time_duration delta_time time_division tempo
  (byteAt data 3).bind fun ch =>
  .ok (.midiChannelPrefixEvent ch 4 delta_time time_duration)

/-- Embedding of `MidiPortEvent::from_bytes` (`src/metaevents/midi_port.rs`): reads the
port at offset 3, size 4. -/
def MidiPortEvent.from_bytes (data : List Nat) (delta_time : Nat)
    (time_division : TimeDivision) (tempo : Nat) : Outcome MidiEvent :=
  let time_duration := calculate_time_duration delta_time time_division tempo
  (byteAt data 3).bind fun p =>
  .ok (.midiPortEvent p 4 delta_time time_duration)

/-- Embedding of `EndOfTrack::from_bytes` (`src/metaevents/end_of_track.rs` lines 82-102):
reads no payload, size 3. -/
def EndOfTrack.from_bytes (_data : List Nat) (delta_time : Nat)
    (time_division : TimeDivision) (tempo : Nat) : Outcome MidiEvent :=
  let time_duration := calculate_time_duration delta_time time_division tempo
  .ok (.endOfTrackEvent 3 delta_time time_duration)

/-- Embedding of `SetTempoEvent::from_bytes` (`src/metaevents/set_tempo.rs` lines 98-128):
24-bit big-endian microseconds-per-quarter at offset 3, converted to BPM and
stored as the event tempo; size 6. -/
def SetTempoEvent.from_bytes (data : List Nat) (delta_time : Nat)
    (time_division : TimeDivision) (tempo : Nat) : Outcome MidiEvent :=
  let time_duration := calculate_time_duration delta_time time_division tempo
  (byteAt data 3).bind fun t0 =>
  (byteAt data 4).bind fun t1 =>
  (byteAt data 5).bind fun t2 =>
  let tempo_in_micro := (t0 * 256 + t1) * 256 + t2
  .ok (.setTempoEvent (microseconds_to_bpm tempo_in_micro) 6 delta_time time_duration)

/-- Embedding of `SMPTEOffsetEvent::from_bytes` (`src/metaevents/smpte_offset.rs`): five
payload bytes at offset 3, size 8. -/
def SMPTEOffsetEvent.from_bytes (data : List Nat) (delta_time : Nat)
    (time_division : TimeDivision) (tempo : Nat) : Outcome MidiEvent :=
  let time_duration := calculate_time_duration delta_time time_division tempo
  (byteAt data 3).bind fun hour =>
  (byteAt data 4).bind fun minute =>
  (byteAt data 5).bind fun second =>
  (byteAt data 6).bind fun frame_rate =>
  (byteAt data 7).bind fun fractional_frames =>
  .ok (.smpteOffsetEvent hour minute second frame_rate fractional_frames 8 delta_time time_duration)

/-- Embedding of `TimeSignatureEvent::from_bytes` (`src/metaevents/time_signature.rs` lines
122-161): the on-wire denominator byte is an exponent; `2_u8.pow` panics on
overflow (exponent above 7) as in a Rust debug build; size 7. -/
def TimeSignatureEvent.from_bytes (data : List Nat) (delta_time : Nat)
    (time_division : TimeDivision) (tempo : Nat) : Outcome MidiEvent :=
  let time_duration := calculate_time_duration delta_time time_division tempo
  (byteAt data 3).bind fun numerator =>
  (byteAt data 4).bind fun d1 =>
  (if d1 ≥ 8 then Outcome.panicked else .ok (2 ^ d1)).bind fun denominator =>
  (byteAt data 5).bind fun metronome_clicks =>
  (byteAt data 6).bind fun n32 =>
  .ok (.timeSignatureEvent numerator denominator metronome_clicks n32 7 delta_time time_duration)

/-- Embedding of `KeySignatureEvent::from_bytes` (`src/metaevents/key_signature.rs` lines
149-183): the accidental count byte reinterpreted as `i8`, the mode byte
restricted to {0, 1}; size 5. -/
def KeySignatureEvent.from_bytes (data : List Nat) (delta_time : Nat)
    (time_division : TimeDivision) (tempo : Nat) : Outcome MidiEvent :=
  let time_duration := calculate_time_duration delta_time time_division tempo
  (byteAt data 3).bind fun b0 =>
  let signed : Int := if b0 < 128 then (b0 : Int) else (b0 : Int) - 256
  (Outcome.ofExcept (get_key_signature_from_num_of_accidentals signed)).bind fun ka =>
  (byteAt data 4).bind fun m =>
  (if m = 0 then Outcome.ok Mode.Major
   else if m = 1 then .ok .Minor
   else .error (.EventError .InvalidKeySignature)).bind fun mode =>
  .ok (.keySignatureEvent (KeySignature.new ka.1 ka.2 mode) 5 delta_time time_duration)

/-- Embedding of `SequencerSpecificEvent::from_bytes` (`src/metaevents/sequencer_specific.rs`):
like the text events but without UTF-8 decoding. -/
def SequencerSpecificEvent.from_bytes (data : List Nat) (delta_time : Nat)
    (time_division : TimeDivision) (tempo : Nat) : Outcome MidiEvent :=
  let time_duration := calculate_time_duration delta_time time_division tempo
  let data2 := data.drop 2
  let vlq := from_bytes_to_vlq data2
  let data_length := vlq.1
  let num_of_bytes := vlq.2
  (sliceRange data2 num_of_bytes (num_of_bytes + data_length)).bind fun payload =>
  if 2 + num_of_bytes + payload.length % 256 ≥ 256 then .panicked
  else .ok (.sequencerSpecificEvent payload data_length
    (2 + num_of_bytes + payload.length % 256) delta_time time_duration)

/-- Embedding of `parse_meta_event` (`src/track.rs` lines 160-230): dispatch on the
meta-event type byte `data[1]`; unknown types are `NotImplemented`. -/
def parse_meta_event (data : List Nat) (delta_time : Nat)
    (ticks_per_quarter_note : TimeDivision) (tempo : Nat) : Outcome MidiEvent :=
  (byteAt data 1).bind fun t =>
  match t with
  | 0x00 => SequenceNumber.from_bytes data delta_time ticks_per_quarter_note tempo
  | 0x01 => TextEvent.from_bytes data delta_time ticks_per_quarter_note tempo
  | 0x02 => CopyRightNoticeEvent.from_bytes data delta_time ticks_per_quarter_note tempo
  | 0x03 => TrackNameEvent.from_bytes data delta_time ticks_per_quarter_note tempo
  | 0x04 => InstrumentNameEvent.from_bytes data delta_time ticks_per_quarter_note tempo
  | 0x05 => LyricEvent.from_bytes data delta_time ticks_per_quarter_note tempo
  | 0x06 => MarkerEvent.from_bytes data delta_time ticks_per_quarter_note tempo
  | 0x07 => CuePointEvent.from_bytes data delta_time ticks_per_quarter_note tempo
  | 0x20 => MidiChannelPrefixEvent.from_bytes data delta_time ticks_per_quarter_note tempo
  | 0x21 => MidiPortEvent.from_bytes data delta_time ticks_per_quarter_note tempo
  | 0x2F => EndOfTrack.from_bytes data delta_time ticks_per_quarter_note tempo
  | 0x51 => SetTempoEvent.from_bytes data delta_time ticks_per_quarter_note tempo
  | 0x54 => SMPTEOffsetEvent.from_bytes data delta_time ticks_per_quarter_note tempo
  | 0x58 => TimeSignatureEvent.from_bytes data delta_time ticks_per_quarter_note tempo
  | 0x59 => KeySignatureEvent.from_bytes data delta_time ticks_per_quarter_note tempo
  | 0x7F => SequencerSpecificEvent.from_bytes data delta_time ticks_per_quarter_note tempo
  | _ => .error (.ParseError .NotImplemented)

/-- Embedding of `parse_event` (`src/track.rs` lines 133-150): `0xFF` dispatches to the
meta-event parser, otherwise the high status nibble selects the channel voice
kind; anything else is `NotImplemented`. -/
def parse_event (status_byte : Nat) (data : List Nat) (delta_time : Nat)
    (time_division : TimeDivision) (tempo : Nat) : Outcome MidiEvent :=
  if status_byte = 0xFF then parse_meta_event data delta_time time_division tempo
  else
    match (status_byte &&& EVENT_MASK) >>> 4 with
    | 0x9 => NoteOnEvent.from_bytes data delta_time time_division tempo
    | 0x8 => NoteOffEvent.from_bytes data delta_time time_division tempo
    | 0xA => PolyphonicKeyPressureEvent.from_bytes data delta_time time_division tempo
    | 0xB => ControlChangeEvent.from_bytes data delta_time time_division tempo
    | 0xC => ProgramChangeEvent.from_bytes data delta_time time_division tempo
    | 0xD => ChannelPressureEvent.from_bytes data delta_time time_division tempo
    | 0xE => PitchBendChangeEvent.from_bytes data delta_time time_division tempo
    | _ => .error (.ParseError .NotImplemented)

/-- Embedding of `parse_running_status_data` (`src/track.rs` lines 152-158): only note-on
(`0x9`) and control-change (`0xB`) running statuses are recognised; note the
Rust caller hands this the whole track payload, not the slice at the current
position. -/
def parse_running_status_data (running_status channel : Nat) (data : List Nat)
    (delta_time : Nat) (time_division : TimeDivision) (tempo : Nat) : Outcome MidiEvent :=
  match running_status >>> 4 with
  | 0x9 => NoteOnEvent.new_from_status data delta_time channel time_division tempo
  | 0xB => ControlChangeEvent.new_from_status data channel time_division tempo
  | _ => .error (.ParseError .InvalidEventBytes)

/-- Running-status update of `src/track.rs` lines 86-91: only events whose
`is_running_status_allowed` returns `true` overwrite the `(running_status,
channel)` pair; every other event leaves it unchanged. -/
def runningStatusUpdate (event : MidiEvent) (running_status channel : Nat) : Nat × Nat :=
  if event.is_running_status_allowed then (event.event_type, event.get_channel)
  else (running_status, channel)

/-- Embedding of `TRACK_HEADER_BYTES` (`src/track.rs`): big-endian `M T r k`. -/
def TRACK_HEADER_BYTES : Nat := 0x4D54726B

/-- Embedding of `validate_track_header_chunk_bytes` (`src/track.rs` lines 232-237). -/
def validate_track_header_chunk_bytes (track_header_chunk_bytes : Nat) : Except MidiError Unit :=
  if track_header_chunk_bytes = TRACK_HEADER_BYTES then .ok ()
  else .error (.ParseError .InvalidHeader)

/-- Embedding of `Track` from `src/track.rs`. -/
structure Track where
  events : List MidiEvent
  track_size : Nat
  deriving DecidableEq, Repr

/-- Event loop of `Track::new` (`src/track.rs` lines 57-93), with explicit
fuel.  Per iteration: decode a delta-time VLQ, then either (a) if the next two
bytes both have a clear MSB and a running status is held, re-parse via
`parse_running_status_data` (handing it the whole payload, as the source
does) and advance two bytes, or (b) parse a fresh event from the current
position, advance by its `event_size`, and let channel voice events update the
running status.  The loop exits only when `position` reaches `track_size`.
The short-circuit evaluation of the Rust `&&` chain is reproduced:
`data[position + 1]` is only indexed when `data[position]` has a clear MSB. -/
def Track.eventLoop (time_division : TimeDivision) (tempo : Nat) (data : List Nat)
    (track_size : Nat) :
    Nat → Nat → Nat → Nat → List MidiEvent → Outcome (List MidiEvent)
  | 0, _, _, _, _ => .diverged
  | fuel + 1, position, running_status, channel, events =>
    if position < track_size then
      let vlq := from_bytes_to_vlq (data.drop position)
      let delta_time := vlq.1
      let position := position + vlq.2
      (byteAt data position).bind fun b =>
      (if is_msb_zero b then
        (byteAt data (position + 1)).bind fun b2 =>
        .ok (is_msb_zero b2 && running_status != 0)
       else .ok false).bind fun cond =>
      if cond then
        (parse_running_status_data running_status channel data delta_time
            time_division tempo).bind fun event =>
        Track.eventLoop time_division tempo data track_size fuel (position + 2)
          running_status channel (events ++ [event])
      else
        (parse_event b (data.drop position) delta_time time_division tempo).bind fun event =>
        let position := position + event.get_event_size
        let rs := runningStatusUpdate event running_status channel
        Track.eventLoop time_division tempo data track_size fuel position
          rs.1 rs.2 (events ++ [event])
    else .ok events

/-- Embedding of `Track::new` (`src/track.rs` lines 29-103): validate the `MTrk` magic,
read the declared size, slice the payload (`&data[8..track_size + 8]`, a
panic when the buffer is shorter), tokenize, and return the track together
with the tempo and time signature it was called with.  Since every loop
iteration consumes at least the one delta-time byte, `track_size + 1` units
of fuel dominate the Rust loop. -/
def Track.new (data : List Nat) (time_division : TimeDivision) (tempo : Nat)
    (time_signature : TimeSignature) : Outcome (Track × Nat × TimeSignature) :=
  (byteAt data 0).bind fun b0 =>
  (byteAt data 1).bind fun b1 =>
  (byteAt data 2).bind fun b2 =>
  (byteAt data 3).bind fun b3 =>
  (Outcome.ofExcept (validate_track_header_chunk_bytes (u32be b0 b1 b2 b3))).bind fun _ =>
  (byteAt data 4).bind fun b4 =>
  (byteAt data 5).bind fun b5 =>
  (byteAt data 6).bind fun b6 =>
  (byteAt data 7).bind fun b7 =>
  let track_size := u32be b4 b5 b6 b7
  (sliceRange data 8 (track_size + 8)).bind fun payload =>
  (Track.eventLoop time_division tempo payload track_size (track_size + 1)
      0 0 0 []).bind fun events =>
  .ok ({ events := events, track_size := track_size }, tempo, time_signature)

/-- Loop of `Track::get_track_list` (`src/track.rs` lines 105-130), with
explicit fuel: parse one `MTrk` chunk per iteration, thread the returned tempo
and time signature, and advance by `track_size + 8` bytes. -/
def Track.trackListLoop (data : List Nat) :
    Nat → Nat → Nat → TimeSignature → List Track → Outcome (List Track)
  | 0, _, _, _, _ => .diverged
  | fuel + 1, position, tempo, time_signature, track_list =>
    if position < data.length then
      (Track.new (data.drop position) (.PulsesPerQuarterNote 96) tempo
          time_signature).bind fun r =>
      Track.trackListLoop data fuel (position + (r.1.track_size + 8)) r.2.1 r.2.2
        (track_list ++ [r.1])
    else .ok track_list

/-- Embedding of `Track::get_track_list` (`src/track.rs` lines 105-130): starts from the
default 4/4 time signature and tempo 120 BPM, and hands every track the fixed
division `PulsesPerQuarterNote(96)`.  Each iteration advances at least 8
bytes, so `data.length + 1` units of fuel dominate the Rust loop. -/
def Track.get_track_list (data : List Nat) : Outcome (List Track) :=
  Track.trackListLoop data (data.length + 1) 0 120 { numerator := 4, denominator := 4 } []

/-- Embedding of `HEADER_CHUNK_MTHD_BYTES` (`src/metadata.rs`): big-endian `M T h d`. -/
def HEADER_CHUNK_MTHD_BYTES : Nat := 0x4D546864

/-- Embedding of `validate_header_chunk_bytes` (`src/metadata.rs` lines 105-110). -/
def validate_header_chunk_bytes (header_chunk_bytes : Nat) : Except MidiError Unit :=
  if header_chunk_bytes = HEADER_CHUNK_MTHD_BYTES then .ok ()
  else .error (.ParseError .InvalidHeader)

/-- Embedding of `validate_fps_byte` (`src/metadata.rs` lines 112-117). -/
def validate_fps_byte (fps_byte : Nat) : Except MidiError Unit :=
  if fps_byte = 24 ∨ fps_byte = 25 ∨ fps_byte = 29 ∨ fps_byte = 30 then .ok ()
  else .error (.ParseError .InvalidFPS)

/-- Embedding of `MetaData` from `src/metadata.rs`. -/
structure MetaData where
  num_of_tracks : Nat
  file_format : FileFormat
  time_division : TimeDivision
  deriving DecidableEq, Repr

/-- Embedding of `MetaData::new` (`src/metadata.rs` lines 37-51) inlined with its helpers
`get_num_of_tracks` (bytes 10-11), `get_file_format` (bytes 8-9) and
`get_time_division` (bytes 12-13), in the source validation order: magic,
track count, format, division.  In the SMPTE branch the `i8` computation
`(frame_rate & 0x7F) + -128` yields `-128` for byte `0x80`, whose `abs()`
overflows and panics (as in a Rust debug build); otherwise the fps is
`128 - byte % 128`. -/
def MetaData.new (file_contents : List Nat) : Outcome MetaData :=
  (byteAt file_contents 0).bind fun b0 =>
  (byteAt file_contents 1).bind fun b1 =>
  (byteAt file_contents 2).bind fun b2 =>
  (byteAt file_contents 3).bind fun b3 =>
  (Outcome.ofExcept (validate_header_chunk_bytes (u32be b0 b1 b2 b3))).bind fun _ =>
  (byteAt file_contents 10).bind fun b10 =>
  (byteAt file_contents 11).bind fun b11 =>
  let num_of_tracks := u16be b10 b11
  (if num_of_tracks = 0 then Outcome.error (.ParseError .InvalidNumOfTracks)
   else .ok num_of_tracks).bind fun num_of_tracks =>
  (byteAt file_contents 8).bind fun b8 =>
  (byteAt file_contents 9).bind fun b9 =>
  (match u16be b8 b9 with
   | 0 => Outcome.ok FileFormat.SINGLE_TRACK
   | 1 => .ok .MULTI_TRACK
   | 2 => .ok .MULTI_SONG
   | _ => .error (.ParseError .InvalidFileFormat)).bind fun file_format =>
  (byteAt file_contents 12).bind fun b12 =>
  (byteAt file_contents 13).bind fun b13 =>
  (if 128 ≤ b12 then
     if b12 % 128 = 0 then Outcome.panicked
     else
       let fps := 128 - b12 % 128
       (Outcome.ofExcept (validate_fps_byte fps)).bind fun _ =>
       .ok (TimeDivision.SMPTE fps b13)
   else .ok (.PulsesPerQuarterNote (u16be b12 b13))).bind fun time_division =>
  .ok { num_of_tracks := num_of_tracks, file_format := file_format,
        time_division := time_division }

/-- Embedding of `Midi` from `src/lib.rs` (the `midi_file` path string is not represented;
the file read is modelled by handing the byte buffer directly). -/
structure Midi where
  meta_data : MetaData
  tempo : Nat
  time_signature : TimeSignature
  track_list : List Track
  deriving DecidableEq, Repr

/-- Embedding of `Midi::new` (`src/lib.rs` lines 37-57) on the file contents: header from
`&file_contents[0..14]` (a panic when the buffer is shorter), tracks from
`&file_contents[14..]`, stored tempo 120 and 4/4 time signature. -/
def Midi.new (file_contents : List Nat) : Outcome Midi :=
  (sliceRange file_contents 0 14).bind fun header_bytes =>
  (MetaData.new header_bytes).bind fun meta_data =>
  (Track.get_track_list (file_contents.drop 14)).bind fun track_list =>
  .ok { meta_data := meta_data, tempo := 120,
        time_signature := { numerator := 4, denominator := 4 },
        track_list := track_list }

/-- Embedding of `MidiParseError` from `src/errors.rs`, message strings elided. -/
inductive MidiParseError where
  | EndOfData
  | InvalidDataBounds
  | InvalidHeader
  | InvalidFileFormat
  | InvalidNumOfTracks
  deriving DecidableEq, Repr

/-- Embedding of `ByteReader` from `src/bytereader.rs`. -/
structure ByteReader where
  data : List Nat
  pos : Nat
  len : Nat
  deriving DecidableEq, Repr

/-- Embedding of `ByteReader::new`. -/
def ByteReader.new (data : List Nat) : ByteReader :=
  { data := data, pos := 0, len := data.length }

/-- Embedding of `ByteReader::get_next_bytes`: bounds-checked read of `num_bytes` bytes. -/
def ByteReader.get_next_bytes (r : ByteReader) (num_bytes : Nat) :
    Except MidiParseError (List Nat × ByteReader) :=
  if r.pos + num_bytes ≤ r.len then
    .ok (((r.data.drop r.pos).take num_bytes).map (· % 256),
         { r with pos := r.pos + num_bytes })
  else .error .EndOfData

/-- Embedding of `ByteReader::get_next_u32`. -/
def ByteReader.get_next_u32 (r : ByteReader) : Except MidiParseError (Nat × ByteReader) :=
  (r.get_next_bytes 4).bind fun br =>
  match br.1 with
  | [a, b, c, d] => .ok (u32be a b c d, br.2)
  | _ => .error .EndOfData

/-- Embedding of `ByteReader::get_next_u16`. -/
def ByteReader.get_next_u16 (r : ByteReader) : Except MidiParseError (Nat × ByteReader) :=
  (r.get_next_bytes 2).bind fun br =>
  match br.1 with
  | [a, b] => .ok (u16be a b, br.2)
  | _ => .error .EndOfData

/-- Embedding of `MidiFileFormat` from `src/midi/file_header/mod.rs`. -/
inductive MidiFileFormat where
  | SingleTrack
  | MultiTrack
  | MultiSong
  deriving DecidableEq, Repr

/-- Embedding of `MidiFileHeader` from `src/midi/file_header/mod.rs`. -/
structure MidiFileHeader where
  format : MidiFileFormat
  num_tracks : Nat
  division : Nat
  deriving DecidableEq, Repr

/-- Embedding of `MidiFileHeader::format_from_u16` (`src/midi/file_header/mod.rs` lines
91-100). -/
def MidiFileHeader.format_from_u16 (format : Nat) : Except MidiParseError MidiFileFormat :=
  match format with
  | 0 => .ok .SingleTrack
  | 1 => .ok .MultiTrack
  | 2 => .ok .MultiSong
  | _ => .error .InvalidFileFormat

/-- Embedding of `MidiFileHeader::new_from_reader` (`src/midi/file_header/mod.rs` lines
42-82): `MThd` magic, length 6, format word, then the track count, which is
rejected with `InvalidNumOfTracks` only when the format is `SingleTrack` and
the count differs from 1; the division word is never read and is stored as 0. -/
def MidiFileHeader.new_from_reader (reader : ByteReader) :
    Except MidiParseError (MidiFileHeader × ByteReader) :=
  (reader.get_next_bytes 4).bind fun hr =>
  if hr.1 ≠ [0x4D, 0x54, 0x68, 0x64] then .error .InvalidHeader
  else
    (hr.2.get_next_u32).bind fun lr =>
    if lr.1 ≠ 6 then .error .InvalidDataBounds
    else
      (lr.2.get_next_u16).bind fun fr =>
      (MidiFileHeader.format_from_u16 fr.1).bind fun format =>
      (fr.2.get_next_u16).bind fun nr =>
      if format = MidiFileFormat.SingleTrack ∧ nr.1 ≠ 1 then
        .error .InvalidNumOfTracks
      else
        .ok ({ format := format, num_tracks := nr.1, division := 0 }, nr.2)

/-- Value of a byte list read as little-endian 7-bit groups (first byte least
significant); this is the amended reading of the VLQ decoder law, written to
match what `from_bytes_to_vlq` computes. -/
def vlq_little_endian_value : List Nat → Nat
  | [] => 0
  | b :: rest => b % 256 % 128 + 128 * vlq_little_endian_value rest

/-- Well-formed VLQ byte sequence of at most four bytes: non-empty, every byte
except the last has its MSB set, the last has it clear. -/
def wellFormedVlq (bs : List Nat) : Prop :=
  bs ≠ [] ∧ bs.length ≤ 4 ∧
  (∀ i, i < bs.length - 1 → 128 ≤ bs.getD i 0 % 256) ∧
  bs.getD (bs.length - 1) 0 % 256 < 128

instance (bs : List Nat) : Decidable (wellFormedVlq bs) := by
  unfold wellFormedVlq
  infer_instance

/-- Analysis predicate: a successful event-parse outcome carries a
`time_duration` computed by `calculate_time_duration` from its own stored
delta-time and the division and tempo the parser was handed.  Failing
outcomes satisfy it vacuously. -/
def durOk (time_division : TimeDivision) (tempo : Nat) : Outcome MidiEvent → Prop
  | .ok e => e.get_time_duration =
      calculate_time_duration e.get_delta_time time_division tempo
  | _ => True

/-- Sequencing an `Outcome` computation succeeds exactly when both stages do. -/
theorem Outcome.bind_eq_ok {α β : Type} {x : Outcome α} {f : α → Outcome β} {v : β} :
    x.bind f = .ok v ↔ ∃ a, x = .ok a ∧ f a = .ok v := by
  cases x <;> simp [Outcome.bind]

/-- Lifting an `Except` value yields `ok` exactly when the value was `ok`. -/
theorem Outcome.ofExcept_eq_ok {α : Type} {x : Except MidiError α} {v : α} :
    Outcome.ofExcept x = .ok v ↔ x = .ok v := by
  cases x <;> simp [Outcome.ofExcept]

/-- Masking with `0x7F` is reduction mod 128. -/
theorem land127_eq_mod (b : Nat) : b &&& 127 = b % 128 := by
  have h : (127 : Nat) = 2 ^ 7 - 1 := by norm_num
  rw [h, Nat.and_pow_two_sub_one_eq_mod]

/-- For a byte value, the MSB mask is zero exactly below 128. -/
theorem land128_eq_zero_iff : ∀ b, b < 256 → ((b &&& 128 = 0) ↔ b < 128) := by decide

/-- Setting the MSB on a 7-bit value adds 128. -/
theorem lor128_eq_add : ∀ b, b < 128 → b ||| 128 = b + 128 := by decide

/-- Bitwise-or of a small accumulator with a shifted value is addition. -/
theorem lor_shiftLeft_eq_add {acc g s : Nat} (h : acc < 2 ^ s) :
    acc ||| (g <<< s) = g * 2 ^ s + acc := by
  rw [Nat.shiftLeft_eq, Nat.lor_comm, mul_comm]
  exact (Nat.mul_add_lt_is_or h g).symm

/-- The VLQ encoder always emits at least one byte. -/
theorem from_vlq_to_bytes_go_length_pos (v : Nat) : 1 ≤ (from_vlq_to_bytes_go v).length := by
  rw [from_vlq_to_bytes_go]
  by_cases hz : v >>> 7 > 0 <;> simp [hz]

/-- The VLQ encoder emits at most `k + 1` bytes on values below `2 ^ (7 * (k + 1))`. -/
theorem from_vlq_to_bytes_go_length_le :
    ∀ k v, v < 2 ^ (7 * (k + 1)) → (from_vlq_to_bytes_go v).length ≤ k + 1 := by
  intro k
  induction k with
  | zero =>
    intro v hv
    rw [from_vlq_to_bytes_go]
    have h7 : v >>> 7 = v / 128 := by simp [Nat.shiftRight_eq_div_pow]
    have hz : ¬ (v >>> 7 > 0) := by
      rw [h7]
      simp only [gt_iff_lt, not_lt, Nat.le_zero]
      omega
    simp [hz]
  | succ k ih =>
    intro v hv
    rw [from_vlq_to_bytes_go]
    have h7 : v >>> 7 = v / 128 := by simp [Nat.shiftRight_eq_div_pow]
    by_cases hz : v >>> 7 > 0
    · simp only [hz, dif_pos, List.length_cons]
      have hrec : v / 128 < 2 ^ (7 * (k + 1)) := by
        rw [Nat.div_lt_iff_lt_mul (by norm_num : (0:Nat) < 128)]
        calc v < 2 ^ (7 * (k + 2)) := hv
        _ = 2 ^ (7 * (k + 1)) * 128 := by
          rw [show 7 * (k + 2) = 7 * (k + 1) + 7 by ring, pow_add]
          norm_num
      have := ih (v / 128) hrec
      rw [h7]
      omega
    · simp [hz]

/-- Decoding the encoder output with a small accumulator already holding
`acc` in the low `shift` bits appends the value in the higher bits; the core
round-trip fact behind claim C3. -/
theorem from_bytes_to_vlq_go_encode (v : Nat) :
    ∀ acc shift n, acc < 2 ^ shift → acc + v * 2 ^ shift < U32MOD →
    n + (from_vlq_to_bytes_go v).length ≤ 255 →
    from_bytes_to_vlq_go (from_vlq_to_bytes_go v) acc shift n =
      (acc + v * 2 ^ shift, n + (from_vlq_to_bytes_go v).length) := by
  induction v using Nat.strong_induction_on with
  | _ v ih =>
    intro acc shift n hacc hbound hn
    have h7 : v >>> 7 = v / 128 := by simp [Nat.shiftRight_eq_div_pow]
    have hv128 : v % 128 < 128 := Nat.mod_lt _ (by norm_num)
    have hland : v &&& 127 = v % 128 := land127_eq_mod v
    by_cases hz : v >>> 7 > 0
    · have hexp : from_vlq_to_bytes_go v =
          ((v &&& 127) ||| 128) :: from_vlq_to_bytes_go (v >>> 7) := by
        rw [from_vlq_to_bytes_go]
        simp [hz]
      have hv1 : v / 128 > 0 := by rw [← h7]; exact hz
      have hbyte : (v &&& 127) ||| 128 = v % 128 + 128 := by
        rw [hland]; exact lor128_eq_add _ hv128
      rw [hexp, from_bytes_to_vlq_go]
      have hc : (v % 128 + 128) % 256 = v % 128 + 128 := Nat.mod_eq_of_lt (by omega)
      have hc127 : (v % 128 + 128) &&& 127 = v % 128 := by
        rw [land127_eq_mod]; omega
      have hc128 : ¬ ((v % 128 + 128) &&& 128 = 0) := by
        rw [land128_eq_zero_iff _ (by omega)]; omega
      simp only [hbyte, hc, hc127, hc128, if_false]
      have hmono : v % 128 * 2 ^ shift ≤ v * 2 ^ shift :=
        Nat.mul_le_mul_right _ (Nat.mod_le _ _)
      have hdelta : (acc ||| (v % 128) <<< shift) % U32MOD =
          v % 128 * 2 ^ shift + acc := by
        rw [lor_shiftLeft_eq_add hacc]
        exact Nat.mod_eq_of_lt (by omega)
      rw [hdelta]
      have hpow : (2:Nat) ^ (shift + 7) = 2 ^ shift * 128 := by
        rw [pow_add]; norm_num
      have hsplit : v % 128 + 128 * (v / 128) = v := Nat.mod_add_div v 128
      have hval : v % 128 * 2 ^ shift + acc + v / 128 * 2 ^ (shift + 7) =
          acc + v * 2 ^ shift := by
        rw [hpow]
        calc v % 128 * 2 ^ shift + acc + v / 128 * (2 ^ shift * 128)
            = acc + (v % 128 + 128 * (v / 128)) * 2 ^ shift := by ring
        _ = acc + v * 2 ^ shift := by rw [hsplit]
      have hacc2 : v % 128 * 2 ^ shift + acc < 2 ^ (shift + 7) := by
        rw [hpow]
        calc v % 128 * 2 ^ shift + acc < v % 128 * 2 ^ shift + 2 ^ shift := by omega
        _ = (v % 128 + 1) * 2 ^ shift := by ring
        _ ≤ 128 * 2 ^ shift := Nat.mul_le_mul_right _ (by omega)
        _ = 2 ^ shift * 128 := by ring
      have hn2 : (n + 1) % 256 = n + 1 := by
        have := from_vlq_to_bytes_go_length_pos (v >>> 7)
        rw [hexp] at hn
        simp only [List.length_cons] at hn
        omega
      rw [hn2]
      have hrec := ih (v >>> 7) (by rw [h7]; exact Nat.div_lt_self (by omega) (by omega))
        (v % 128 * 2 ^ shift + acc) (shift + 7) (n + 1) hacc2
        (by rw [h7, hval]; exact hbound)
        (by rw [hexp] at hn; simp only [List.length_cons] at hn; omega)
      rw [hrec, h7, hval]
      simp only [List.length_cons, Prod.mk.injEq]
      exact ⟨trivial, by omega⟩
    · have hz0 : v >>> 7 = 0 := by omega
      have hvlt : v < 128 := by
        rw [h7] at hz0
        omega
      have hexp : from_vlq_to_bytes_go v = [v &&& 127] := by
        rw [from_vlq_to_bytes_go]
        simp [hz]
      have hself : v &&& 127 = v := by rw [hland]; omega
      rw [hexp, hself, from_bytes_to_vlq_go]
      have hc : v % 256 = v := Nat.mod_eq_of_lt (by omega)
      have hc127 : v &&& 127 = v := hself
      have hc128 : v &&& 128 = 0 := by
        rw [land128_eq_zero_iff _ (by omega)]
        omega
      simp only [hc, hc127, hc128, if_pos]
      have hdelta : (acc ||| v <<< shift) % U32MOD = v * 2 ^ shift + acc := by
        rw [lor_shiftLeft_eq_add hacc]
        exact Nat.mod_eq_of_lt (by omega)
      rw [hdelta]
      have hn2 : (n + 1) % 256 = n + 1 := by
        rw [hexp] at hn
        simp only [List.length_singleton] at hn
        omega
      rw [hn2]
      simp only [List.length_singleton, Prod.mk.injEq]
      exact ⟨by omega, trivial⟩

/-- The little-endian value of a byte list is bounded by `2 ^ (7 * length)`. -/
theorem vlq_little_endian_value_lt (bs : List Nat) :
    vlq_little_endian_value bs < 2 ^ (7 * bs.length) := by
  induction bs with
  | nil => simp [vlq_little_endian_value]
  | cons b rest ih =>
    simp only [vlq_little_endian_value, List.length_cons]
    have hb : b % 256 % 128 < 128 := Nat.mod_lt _ (by norm_num)
    have hpow : (2:Nat) ^ (7 * (rest.length + 1)) = 128 * 2 ^ (7 * rest.length) := by
      rw [show 7 * (rest.length + 1) = 7 + 7 * rest.length by ring, pow_add]
      norm_num
    rw [hpow]
    calc b % 256 % 128 + 128 * vlq_little_endian_value rest
        < 128 + 128 * vlq_little_endian_value rest := by omega
    _ = 128 * (vlq_little_endian_value rest + 1) := by ring
    _ ≤ 128 * 2 ^ (7 * rest.length) := by
        exact Nat.mul_le_mul_left _ (by omega)

/-- Decoding a byte list whose continuation flags are well formed yields its
little-endian 7-bit-group value; the general fact behind the amended claim C2. -/
theorem from_bytes_to_vlq_go_wf :
    ∀ (bs : List Nat) (acc shift n : Nat), bs ≠ [] →
    (∀ i, i < bs.length - 1 → 128 ≤ bs.getD i 0 % 256) →
    bs.getD (bs.length - 1) 0 % 256 < 128 →
    acc < 2 ^ shift →
    acc + vlq_little_endian_value bs * 2 ^ shift < U32MOD →
    n + bs.length ≤ 255 →
    from_bytes_to_vlq_go bs acc shift n =
      (acc + vlq_little_endian_value bs * 2 ^ shift, n + bs.length) := by
  intro bs
  induction bs with
  | nil => intro _ _ _ h; exact absurd rfl h
  | cons b rest ih =>
    intro acc shift n _ hcont hlast hacc hbound hn
    have hb256 : b % 256 < 256 := Nat.mod_lt _ (by norm_num)
    have hb128 : b % 256 % 128 < 128 := Nat.mod_lt _ (by norm_num)
    have hland : b % 256 &&& 127 = b % 256 % 128 := land127_eq_mod _
    rw [from_bytes_to_vlq_go]
    cases rest with
    | nil =>
      have hlt : b % 256 < 128 := by
        simpa using hlast
      have hc128 : b % 256 &&& 128 = 0 := by
        rw [land128_eq_zero_iff _ hb256]
        exact hlt
      simp only [hland, hc128, if_pos]
      have hself : b % 256 % 128 = b % 256 := Nat.mod_eq_of_lt hlt
      have hval : vlq_little_endian_value [b] = b % 256 % 128 := by
        simp [vlq_little_endian_value]
      have hdelta : (acc ||| (b % 256 % 128) <<< shift) % U32MOD =
          b % 256 % 128 * 2 ^ shift + acc := by
        rw [lor_shiftLeft_eq_add hacc]
        refine Nat.mod_eq_of_lt ?_
        rw [hval] at hbound
        omega
      rw [hdelta]
      have hn2 : (n + 1) % 256 = n + 1 := by
        simp only [List.length_singleton] at hn
        exact Nat.mod_eq_of_lt (by omega)
      rw [hn2, hval]
      simp only [List.length_singleton, Prod.mk.injEq]
      exact ⟨by omega, trivial⟩
    | cons r0 r =>
      have hge : 128 ≤ b % 256 := by
        have := hcont 0 (by simp)
        simpa using this
      have hc128 : ¬ (b % 256 &&& 128 = 0) := by
        rw [land128_eq_zero_iff _ hb256]
        omega
      simp only [hland, hc128, if_false]
      have hdelta : (acc ||| (b % 256 % 128) <<< shift) % U32MOD =
          b % 256 % 128 * 2 ^ shift + acc := by
        rw [lor_shiftLeft_eq_add hacc]
        refine Nat.mod_eq_of_lt ?_
        have hv : vlq_little_endian_value (b :: r0 :: r) =
            b % 256 % 128 + 128 * vlq_little_endian_value (r0 :: r) := rfl
        have hmono : b % 256 % 128 * 2 ^ shift ≤
            vlq_little_endian_value (b :: r0 :: r) * 2 ^ shift :=
          Nat.mul_le_mul_right _ (by rw [hv]; omega)
        omega
      rw [hdelta]
      have hn2 : (n + 1) % 256 = n + 1 := by
        simp only [List.length_cons] at hn
        exact Nat.mod_eq_of_lt (by omega)
      rw [hn2]
      have hpow : (2:Nat) ^ (shift + 7) = 2 ^ shift * 128 := by
        rw [pow_add]; norm_num
      have hacc2 : b % 256 % 128 * 2 ^ shift + acc < 2 ^ (shift + 7) := by
        rw [hpow]
        calc b % 256 % 128 * 2 ^ shift + acc
            < b % 256 % 128 * 2 ^ shift + 2 ^ shift := by omega
        _ = (b % 256 % 128 + 1) * 2 ^ shift := by ring
        _ ≤ 128 * 2 ^ shift := Nat.mul_le_mul_right _ (by omega)
        _ = 2 ^ shift * 128 := by ring
      have hval : b % 256 % 128 * 2 ^ shift + acc +
          vlq_little_endian_value (r0 :: r) * 2 ^ (shift + 7) =
          acc + vlq_little_endian_value (b :: r0 :: r) * 2 ^ shift := by
        have hv : vlq_little_endian_value (b :: r0 :: r) =
            b % 256 % 128 + 128 * vlq_little_endian_value (r0 :: r) := rfl
        rw [hpow, hv]
        ring
      have hcont2 : ∀ i, i < (r0 :: r).length - 1 → 128 ≤ (r0 :: r).getD i 0 % 256 := by
        intro i hi
        have := hcont (i + 1) (by simp at hi ⊢; omega)
        simpa using this
      have hlast2 : (r0 :: r).getD ((r0 :: r).length - 1) 0 % 256 < 128 := by
        have hlen : (b :: r0 :: r).length - 1 = (r0 :: r).length - 1 + 1 := by
          simp
        rw [hlen] at hlast
        simpa using hlast
      have hrec := ih (b % 256 % 128 * 2 ^ shift + acc) (shift + 7) (n + 1)
        (by simp) hcont2 hlast2 hacc2
        (by rw [hval]; exact hbound)
        (by simp only [List.length_cons] at hn ⊢; omega)
      rw [hrec, hval]
      simp only [List.length_cons, Prod.mk.injEq]
      exact ⟨trivial, by omega⟩

/-- Claim C2 counterexample: the decoder is not big-endian.  On the bytes
`0x81 0x00` the code yields value 1 (with 2 bytes consumed), not the 128 that
a big-endian first-byte-most-significant reading demands. -/
theorem C2_vlq_decode_not_big_endian :
    from_bytes_to_vlq [0x81, 0x00] = (1, 2) ∧
    from_bytes_to_vlq [0x81, 0x00] ≠ (128, 2) := by
  constructor
  · rfl
  · decide

/-- Claim C2 (amended): for every well-formed VLQ byte sequence the decoder
combines the 7-bit groups in LITTLE-endian order — the FIRST byte holds the
LEAST significant group — consuming one count per byte; in particular
decoding `0x81 0x00` yields value 1 with 2 bytes consumed, while
`0xFF 0xFF 0xFF 0x7F` still yields `0x0FFFFFFF` with 4 bytes consumed since
all its groups are identical. -/
theorem C2_vlq_decode_little_endian :
    (∀ bs, wellFormedVlq bs →
      from_bytes_to_vlq bs = (vlq_little_endian_value bs, bs.length)) ∧
    from_bytes_to_vlq [0x81, 0x00] = (1, 2) ∧
    from_bytes_to_vlq [0xFF, 0xFF, 0xFF, 0x7F] = (0x0FFFFFFF, 4) := by
  refine ⟨?_, rfl, rfl⟩
  intro bs hwf
  obtain ⟨hne, hlen, hcont, hlast⟩ := hwf
  have hvlt : vlq_little_endian_value bs < 2 ^ (7 * bs.length) :=
    vlq_little_endian_value_lt bs
  have hlenpow : (2:Nat) ^ (7 * bs.length) ≤ 2 ^ 28 := by
    exact Nat.pow_le_pow_right (by norm_num) (by omega)
  have hb2 : vlq_little_endian_value bs < 268435456 := by
    calc vlq_little_endian_value bs < 2 ^ (7 * bs.length) := hvlt
    _ ≤ 2 ^ 28 := hlenpow
    _ = 268435456 := by norm_num
  have h := from_bytes_to_vlq_go_wf bs 0 0 0 hne hcont hlast (by norm_num)
    (by unfold U32MOD; simp only [pow_zero, mul_one, Nat.zero_add]; omega)
    (by omega)
  simpa [from_bytes_to_vlq] using h

/-- Claim C2 witness: the general little-endian law applied at the concrete
well-formed sequence `0x82 0x05`, whose value is `2 + 128 * 5 = 642`. -/
theorem C2_vlq_decode_little_endian_witness :
    from_bytes_to_vlq [0x82, 0x05] = (642, 2) := by
  have h := C2_vlq_decode_little_endian.1 [0x82, 0x05] (by decide)
  simpa [vlq_little_endian_value] using h

/-- Claim C3: for every `v` in `[0, 0x0FFFFFFF]`, decoding the encoder output
returns exactly `(v, n)` with `n` the encoding length and `n ∈ [1, 4]`, and
`0` encodes as the single byte `0x00`. -/
theorem C3_vlq_roundtrip :
    (∀ v, v ≤ 0x0FFFFFFF →
      from_bytes_to_vlq (from_vlq_to_bytes v) = (v, (from_vlq_to_bytes v).length) ∧
      1 ≤ (from_vlq_to_bytes v).length ∧ (from_vlq_to_bytes v).length ≤ 4) ∧
    from_vlq_to_bytes 0 = [0x00] := by
  constructor
  · intro v hv
    have hv32 : v % U32MOD = v := Nat.mod_eq_of_lt (by unfold U32MOD; omega)
    have henc : from_vlq_to_bytes v = from_vlq_to_bytes_go v := by
      rw [from_vlq_to_bytes, hv32]
    have hlen4 : (from_vlq_to_bytes_go v).length ≤ 4 := by
      have := from_vlq_to_bytes_go_length_le 3 v
        (by norm_num at hv ⊢; omega)
      omega
    have hlen1 := from_vlq_to_bytes_go_length_pos v
    have h := from_bytes_to_vlq_go_encode v 0 0 0 (by norm_num)
      (by unfold U32MOD; omega) (by omega)
    rw [henc, from_bytes_to_vlq]
    simp only [pow_zero, mul_one, Nat.zero_add] at h
    exact ⟨by simpa using h, by omega, hlen4⟩
  · norm_num [from_vlq_to_bytes, U32MOD]
    rw [from_vlq_to_bytes_go]
    norm_num

/-- Claim C3 witness: the round-trip law applied at the boundary value
`0x0FFFFFFF`, whose encoding takes the full four bytes. -/
theorem C3_vlq_roundtrip_witness :
    from_bytes_to_vlq (from_vlq_to_bytes 0x0FFFFFFF) =
      (0x0FFFFFFF, (from_vlq_to_bytes 0x0FFFFFFF).length) ∧
    (from_vlq_to_bytes 0x0FFFFFFF).length = 4 := by
  have h := C3_vlq_roundtrip.1 0x0FFFFFFF (by norm_num)
  refine ⟨h.1, ?_⟩
  norm_num [from_vlq_to_bytes, U32MOD]
  rw [from_vlq_to_bytes_go, from_vlq_to_bytes_go, from_vlq_to_bytes_go,
    from_vlq_to_bytes_go]
  norm_num [Nat.shiftRight_eq_div_pow]

/-- Claim C9: for every signed count in `[-7, 7]` the circle-of-fifths mapping
succeeds and the inverse maps the canonical pair back to the same count; the
inverse is total with range inside `[-7, 7]`; every count outside `[-7, 7]`
(within the `i8` range the byte is read as) fails with `InvalidKeySignature`. -/
theorem C9_key_signature_roundtrip :
    (∀ n : Int, -7 ≤ n → n ≤ 7 → ∃ k a,
      get_key_signature_from_num_of_accidentals n = .ok (k, a) ∧
      get_num_of_accidentals_from_key_signature k a = n) ∧
    (∀ k a, -7 ≤ get_num_of_accidentals_from_key_signature k a ∧
      get_num_of_accidentals_from_key_signature k a ≤ 7) ∧
    (∀ n : Int, -128 ≤ n → n ≤ 127 → (n < -7 ∨ 7 < n) →
      get_key_signature_from_num_of_accidentals n =
        .error (.EventError .InvalidKeySignature)) := by
  refine ⟨?_, ?_, ?_⟩
  · intro n h1 h2
    interval_cases n <;> exact ⟨_, _, rfl, rfl⟩
  · intro k a
    cases k <;> cases a <;> exact ⟨by decide, by decide⟩
  · intro n h1 h2 h3
    unfold get_key_signature_from_num_of_accidentals
    split_ifs <;> first | rfl | omega

/-- Claim C9 witness: the round-trip at count 3 (A major side) and the failure
at the out-of-range count 100. -/
theorem C9_key_signature_roundtrip_witness :
    (∃ k a, get_key_signature_from_num_of_accidentals 3 = .ok (k, a) ∧
      get_num_of_accidentals_from_key_signature k a = 3) ∧
    get_key_signature_from_num_of_accidentals 100 =
      .error (.EventError .InvalidKeySignature) :=
  ⟨C9_key_signature_roundtrip.1 3 (by norm_num) (by norm_num),
   C9_key_signature_roundtrip.2.2 100 (by norm_num) (by norm_num) (by norm_num)⟩

/-- Claim C1 (code bug evaluation): on the track whose event stream is
`00 90 3C 40 60 3C 00`, the tokenizer produces the first event correctly
(NoteOn, channel 0, note 60, velocity 64, delta 0), but the running-status
path hands `NoteOnEvent::new_from_status` the WHOLE payload instead of the
slice at the current position, so the second event reads `data[0] = 0x00` and
`data[1] = 0x90` — yielding NoteOn(note 0, velocity 144) — instead of the
bytes `3C 00` at the current position, which the claim (and the debug log in
the source) expects to give NoteOn(note 60, velocity 0).  Durations are the
exact fractions of seconds computed at 96 PPQN, 120 BPM. -/
theorem C1_running_status_reads_track_start :
    Track.new [0x4D, 0x54, 0x72, 0x6B, 0x00, 0x00, 0x00, 0x07,
        0x00, 0x90, 0x3C, 0x40, 0x60, 0x3C, 0x00]
      (.PulsesPerQuarterNote 96) 120 { numerator := 4, denominator := 4 } =
    .ok ({ events := [.noteOnEvent 60 64 0 3 0 { num := 0, den := 96000000 },
                      .noteOnEvent 0 144 0 3 96 { num := 48000000, den := 96000000 }],
           track_size := 7 }, 120, { numerator := 4, denominator := 4 }) := by
  decide

/-- Claim C4 counterexample: a successfully parsed track need not end with
`EndOfTrack`.  The 8-byte payload `00 FF 2F 00 00 90 3C 40` parses without
error into an `EndOfTrack` FOLLOWED by a `NoteOn`: the loop does not stop at
the `EndOfTrack`, and the bytes after it become further events, not an error. -/
theorem C4_events_after_end_of_track_parsed :
    Track.new [0x4D, 0x54, 0x72, 0x6B, 0x00, 0x00, 0x00, 0x08,
        0x00, 0xFF, 0x2F, 0x00, 0x00, 0x90, 0x3C, 0x40]
      (.PulsesPerQuarterNote 96) 120 { numerator := 4, denominator := 4 } =
    .ok ({ events := [.endOfTrackEvent 3 0 { num := 0, den := 96000000 },
                      .noteOnEvent 60 64 0 3 0 { num := 0, den := 96000000 }],
           track_size := 8 }, 120, { numerator := 4, denominator := 4 }) ∧
    ([MidiEvent.endOfTrackEvent 3 0 { num := 0, den := 96000000 },
      MidiEvent.noteOnEvent 60 64 0 3 0 { num := 0, den := 96000000 }].getLast? =
      some (.noteOnEvent 60 64 0 3 0 { num := 0, den := 96000000 })) := by
  exact ⟨by decide, by decide⟩

/-- Claim C4 (amended): the tokenizer loop of `Track::new` terminates exactly
when the position reaches the declared track size — an emitted `EndOfTrack`
does not terminate it and is not validated to be final or unique; bytes after
an `EndOfTrack` inside the declared size are parsed as further events.  The
second conjunct exhibits a track with TWO `EndOfTrack` events that parses
successfully. -/
theorem C4_loop_stops_only_at_declared_size :
    (∀ (td : TimeDivision) (tempo : Nat) (data : List Nat)
       (size fuel pos rs ch : Nat) (evs : List MidiEvent), size ≤ pos →
      Track.eventLoop td tempo data size (fuel + 1) pos rs ch evs = .ok evs) ∧
    Track.new [0x4D, 0x54, 0x72, 0x6B, 0x00, 0x00, 0x00, 0x08,
        0x00, 0xFF, 0x2F, 0x00, 0x00, 0xFF, 0x2F, 0x00]
      (.PulsesPerQuarterNote 96) 120 { numerator := 4, denominator := 4 } =
    .ok ({ events := [.endOfTrackEvent 3 0 { num := 0, den := 96000000 },
                      .endOfTrackEvent 3 0 { num := 0, den := 96000000 }],
           track_size := 8 }, 120, { numerator := 4, denominator := 4 }) := by
  constructor
  · intro td tempo data size fuel pos rs ch evs h
    rw [Track.eventLoop]
    simp [Nat.not_lt.mpr h]
  · decide

/-- Claim C4 witness: the loop-exit law applied at position 5 of a track of
declared size 5. -/
theorem C4_loop_stops_only_at_declared_size_witness :
    Track.eventLoop (.PulsesPerQuarterNote 96) 120 [1, 2, 3] 5 1 5 0 0 [] = .ok [] :=
  C4_loop_stops_only_at_declared_size.1 (.PulsesPerQuarterNote 96) 120 [1, 2, 3]
    5 0 5 0 0 [] (by decide)

/-- Claim C5 counterexample: a status-less data-byte pair directly after a
meta-event does NOT fail with `InvalidEventBytes`.  In the payload
`00 90 3C 40 00 FF 21 01 05 00 3C 40` a MIDI-port meta-event separates the
note-on from the trailing data bytes `3C 40`, yet parsing succeeds: the
meta-event left the running status `0x90` in place. -/
theorem C5_meta_does_not_clear_running_status :
    Track.new [0x4D, 0x54, 0x72, 0x6B, 0x00, 0x00, 0x00, 0x0C,
        0x00, 0x90, 0x3C, 0x40, 0x00, 0xFF, 0x21, 0x01, 0x05, 0x00, 0x3C, 0x40]
      (.PulsesPerQuarterNote 96) 120 { numerator := 4, denominator := 4 } ≠
      .error (.ParseError .InvalidEventBytes) ∧
    (Track.new [0x4D, 0x54, 0x72, 0x6B, 0x00, 0x00, 0x00, 0x0C,
        0x00, 0x90, 0x3C, 0x40, 0x00, 0xFF, 0x21, 0x01, 0x05, 0x00, 0x3C, 0x40]
      (.PulsesPerQuarterNote 96) 120 { numerator := 4, denominator := 4 }).isOk = true := by
  exact ⟨by decide, by decide⟩

/-- Claim C5 (amended): the running-status state is set only by successfully
parsed channel voice events and is NOT cleared by meta-events; a status-less
data-byte pair after a meta-event is consumed through the retained pre-meta
running status instead of failing with `InvalidEventBytes`.  The final
conjunct runs the tokenizer on a track where a `NoteOn`, a MIDI-port
meta-event, and the data bytes `3C 40` appear in sequence: the data bytes
are parsed as a running-status `NoteOn` (whose payload bytes are read from
the start of the track, per the C1 bug). -/
theorem C5_running_status_set_only_by_channel_voice :
    (∀ (e : MidiEvent) (rs ch : Nat), e.is_running_status_allowed = false →
      runningStatusUpdate e rs ch = (rs, ch)) ∧
    (∀ (e : MidiEvent) (rs ch : Nat), e.is_running_status_allowed = true →
      runningStatusUpdate e rs ch = (e.event_type, e.get_channel)) ∧
    Track.new [0x4D, 0x54, 0x72, 0x6B, 0x00, 0x00, 0x00, 0x0C,
        0x00, 0x90, 0x3C, 0x40, 0x00, 0xFF, 0x21, 0x01, 0x05, 0x00, 0x3C, 0x40]
      (.PulsesPerQuarterNote 96) 120 { numerator := 4, denominator := 4 } =
    .ok ({ events := [.noteOnEvent 60 64 0 3 0 { num := 0, den := 96000000 },
                      .midiPortEvent 5 4 0 { num := 0, den := 96000000 },
                      .noteOnEvent 0 144 0 3 0 { num := 0, den := 96000000 }],
           track_size := 12 }, 120, { numerator := 4, denominator := 4 }) := by
  refine ⟨?_, ?_, by decide⟩
  · intro e rs ch h
    simp [runningStatusUpdate, h]
  · intro e rs ch h
    simp [runningStatusUpdate, h]

/-- Claim C5 witness: a meta-event (`EndOfTrack`) leaves an arbitrary
running-status pair untouched, and a `NoteOn` overwrites it with its own
status constant and channel. -/
theorem C5_running_status_set_only_by_channel_voice_witness :
    runningStatusUpdate (.endOfTrackEvent 3 0 { num := 0, den := 1 }) 0x90 5 = (0x90, 5) ∧
    runningStatusUpdate (.noteOnEvent 60 64 2 3 0 { num := 0, den := 1 }) 0x90 5 = (0x90, 2) :=
  ⟨C5_running_status_set_only_by_channel_voice.1
      (.endOfTrackEvent 3 0 { num := 0, den := 1 }) 0x90 5 rfl,
   C5_running_status_set_only_by_channel_voice.2.1
      (.noteOnEvent 60 64 2 3 0 { num := 0, den := 1 }) 0x90 5 rfl⟩

/-- Claim C6 counterexample: parsing is NOT total.  The empty buffer makes
both `Track::new` and `MetaData::new` index out of bounds (a Rust panic, not
a taxonomy error); a track chunk whose declared size (9) exceeds the bytes
remaining after the 8-byte preface (4) panics in the payload slice
`&data[8..track_size + 8]`; and `Midi::new` panics on a file shorter than 14
bytes when slicing `&file_contents[0..14]`. -/
theorem C6_short_buffer_panics :
    Track.new [] (.PulsesPerQuarterNote 96) 120 { numerator := 4, denominator := 4 } =
      .panicked ∧
    MetaData.new [] = .panicked ∧
    Track.new [0x4D, 0x54, 0x72, 0x6B, 0x00, 0x00, 0x00, 0x09, 0x00, 0xFF, 0x2F, 0x00]
      (.PulsesPerQuarterNote 96) 120 { numerator := 4, denominator := 4 } = .panicked ∧
    Midi.new [0x4D, 0x54, 0x68, 0x64] = .panicked := by
  refine ⟨by decide, by decide, by decide, by decide⟩

/-- Claim C6 (amended): the header parser `MetaData::new` is total — returns a
parsed value or a taxonomy error, never panics and never loops — on every
buffer holding the full 14 header bytes, except for the SMPTE division byte
`0x80` whose `i8` absolute value overflows.  (Truncated buffers panic, per
the counterexample.) -/
theorem C6_metadata_total_on_full_header :
    ∀ (b0 b1 b2 b3 b4 b5 b6 b7 b8 b9 b10 b11 b12 b13 : Nat) (rest : List Nat),
      b12 % 256 ≠ 128 →
      MetaData.new (b0 :: b1 :: b2 :: b3 :: b4 :: b5 :: b6 :: b7 :: b8 :: b9 ::
          b10 :: b11 :: b12 :: b13 :: rest) ≠ .panicked ∧
      MetaData.new (b0 :: b1 :: b2 :: b3 :: b4 :: b5 :: b6 :: b7 :: b8 :: b9 ::
          b10 :: b11 :: b12 :: b13 :: rest) ≠ .diverged := by
  intro b0 b1 b2 b3 b4 b5 b6 b7 b8 b9 b10 b11 b12 b13 rest h12
  have e0 : byteAt (b0 :: b1 :: b2 :: b3 :: b4 :: b5 :: b6 :: b7 :: b8 :: b9 ::
      b10 :: b11 :: b12 :: b13 :: rest) 0 = Outcome.ok (b0 % 256) := rfl
  have e1 : byteAt (b0 :: b1 :: b2 :: b3 :: b4 :: b5 :: b6 :: b7 :: b8 :: b9 ::
      b10 :: b11 :: b12 :: b13 :: rest) 1 = Outcome.ok (b1 % 256) := rfl
  have e2 : byteAt (b0 :: b1 :: b2 :: b3 :: b4 :: b5 :: b6 :: b7 :: b8 :: b9 ::
      b10 :: b11 :: b12 :: b13 :: rest) 2 = Outcome.ok (b2 % 256) := rfl
  have e3 : byteAt (b0 :: b1 :: b2 :: b3 :: b4 :: b5 :: b6 :: b7 :: b8 :: b9 ::
      b10 :: b11 :: b12 :: b13 :: rest) 3 = Outcome.ok (b3 % 256) := rfl
  have e8 : byteAt (b0 :: b1 :: b2 :: b3 :: b4 :: b5 :: b6 :: b7 :: b8 :: b9 ::
      b10 :: b11 :: b12 :: b13 :: rest) 8 = Outcome.ok (b8 % 256) := rfl
  have e9 : byteAt (b0 :: b1 :: b2 :: b3 :: b4 :: b5 :: b6 :: b7 :: b8 :: b9 ::
      b10 :: b11 :: b12 :: b13 :: rest) 9 = Outcome.ok (b9 % 256) := rfl
  have e10 : byteAt (b0 :: b1 :: b2 :: b3 :: b4 :: b5 :: b6 :: b7 :: b8 :: b9 ::
      b10 :: b11 :: b12 :: b13 :: rest) 10 = Outcome.ok (b10 % 256) := rfl
  have e11 : byteAt (b0 :: b1 :: b2 :: b3 :: b4 :: b5 :: b6 :: b7 :: b8 :: b9 ::
      b10 :: b11 :: b12 :: b13 :: rest) 11 = Outcome.ok (b11 % 256) := rfl
  have e12 : byteAt (b0 :: b1 :: b2 :: b3 :: b4 :: b5 :: b6 :: b7 :: b8 :: b9 ::
      b10 :: b11 :: b12 :: b13 :: rest) 12 = Outcome.ok (b12 % 256) := rfl
  have e13 : byteAt (b0 :: b1 :: b2 :: b3 :: b4 :: b5 :: b6 :: b7 :: b8 :: b9 ::
      b10 :: b11 :: b12 :: b13 :: rest) 13 = Outcome.ok (b13 % 256) := rfl
  simp only [MetaData.new, e0, e1, e2, e3, e8, e9, e10, e11, e12, e13, Outcome.bind]
  cases hv : validate_header_chunk_bytes (u32be (b0 % 256) (b1 % 256) (b2 % 256) (b3 % 256)) with
  | error e => simp [Outcome.ofExcept, Outcome.bind]
  | ok u =>
    simp only [Outcome.ofExcept, Outcome.bind]
    by_cases hnum : u16be (b10 % 256) (b11 % 256) = 0
    · simp [hnum, Outcome.bind]
    · simp only [hnum, if_false, ite_false, Outcome.bind]
      split
      all_goals first
        | (simp [Outcome.bind]; done)
        | (rename_i heq
           exfalso
           split at heq <;> simp_all
           done)
        | (simp only [Outcome.bind]
           by_cases h128 : 128 ≤ b12 % 256
           · have hz : ¬ (b12 % 256 % 128 = 0) := by omega
             rw [if_pos h128, if_neg hz]
             cases hfps : validate_fps_byte (128 - b12 % 256 % 128) <;>
               simp [Outcome.ofExcept, Outcome.bind]
           · rw [if_neg h128]
             simp [Outcome.bind])

/-- Claim C6 witness: the totality law applied to a concrete well-formed
14-byte header. -/
theorem C6_metadata_total_on_full_header_witness :
    MetaData.new [0x4D, 0x54, 0x68, 0x64, 0x00, 0x00, 0x00, 0x06,
        0x00, 0x00, 0x00, 0x01, 0x00, 0x60] ≠ .panicked :=
  (C6_metadata_total_on_full_header 0x4D 0x54 0x68 0x64 0x00 0x00 0x00 0x06
    0x00 0x00 0x00 0x01 0x00 0x60 [] (by decide)).1

/-- Claim C7 (code bug evaluation): the initial tempo is 120 BPM — at which
`calculate_time_duration` uses `60_000_000 / 120 = 500_000` µs per quarter —
but a `SetTempo` event does NOT update the tempo.  On a track carrying
`SetTempo(µs = 1_000_000)` (60 BPM) followed by a NoteOn at delta 96,
`Track::new` returns the INPUT tempo 120 unchanged (not the event tempo 60),
and the NoteOn duration is `96/96 × 500000/1000000 = 1/2` s, computed from
120 BPM, where the claim requires the 1 s that 60 BPM would give. -/
theorem C7_set_tempo_not_propagated :
    Track.new [0x4D, 0x54, 0x72, 0x6B, 0x00, 0x00, 0x00, 0x0B,
        0x00, 0xFF, 0x51, 0x03, 0x0F, 0x42, 0x40, 0x60, 0x90, 0x3C, 0x40]
      (.PulsesPerQuarterNote 96) 120 { numerator := 4, denominator := 4 } =
    .ok ({ events := [.setTempoEvent { num := 60000000, den := 1000000 } 6 0
                        { num := 0, den := 96000000 },
                      .noteOnEvent 60 64 0 3 96 { num := 48000000, den := 96000000 }],
           track_size := 11 }, 120, { numerator := 4, denominator := 4 }) ∧
    Frac.toRat { num := 60000000, den := 1000000 } = 60 ∧
    (120 : Rat) ≠ 60 ∧
    Frac.toRat (calculate_time_duration 96 (.PulsesPerQuarterNote 96) 120) = 1/2 ∧
    Frac.toRat (calculate_time_duration 96 (.PulsesPerQuarterNote 96) 60) = 1 ∧
    (1/2 : Rat) ≠ 1 := by
  refine ⟨by decide, by norm_num [Frac.toRat], by norm_num,
    by norm_num [Frac.toRat, calculate_time_duration],
    by norm_num [Frac.toRat, calculate_time_duration], by norm_num⟩

/-- Claim C8 counterexample: `MetaData::new` accepts a header whose format
field is 0 with a track count of 2 — the claim demands `InvalidNumOfTracks`
for every format-0 header whose count is not 1. -/
theorem C8_format0_multi_track_accepted :
    MetaData.new [0x4D, 0x54, 0x68, 0x64, 0x00, 0x00, 0x00, 0x06,
        0x00, 0x00, 0x00, 0x02, 0x00, 0x60] =
    .ok { num_of_tracks := 2, file_format := .SINGLE_TRACK,
          time_division := .PulsesPerQuarterNote 96 } := by
  decide

/-- Claim C8 (amended): the two header parsers each enforce only half of the
claimed rule.  `MetaData::new` fails with `InvalidNumOfTracks` exactly when
the `uint16` track-count field is 0 — the format-0 constraint is not checked
there — and on success stores the track count exactly as read.
`MidiFileHeader::new_from_reader`, conversely, enforces only the
format-0-requires-one-track rule: it accepts a track count of 0 for format 1
(returning `num_tracks = 0`) and rejects format 0 with count 2. -/
theorem C8_invalid_num_of_tracks_characterization :
    (∀ (b4 b5 b6 b7 b8 b9 b10 b11 b12 b13 : Nat) (rest : List Nat),
      MetaData.new (0x4D :: 0x54 :: 0x68 :: 0x64 :: b4 :: b5 :: b6 :: b7 :: b8 :: b9 ::
          b10 :: b11 :: b12 :: b13 :: rest) = .error (.ParseError .InvalidNumOfTracks) ↔
        u16be (b10 % 256) (b11 % 256) = 0) ∧
    (∀ (b4 b5 b6 b7 b8 b9 b10 b11 b12 b13 : Nat) (rest : List Nat) (md : MetaData),
      MetaData.new (0x4D :: 0x54 :: 0x68 :: 0x64 :: b4 :: b5 :: b6 :: b7 :: b8 :: b9 ::
          b10 :: b11 :: b12 :: b13 :: rest) = .ok md →
      md.num_of_tracks = u16be (b10 % 256) (b11 % 256)) ∧
    MidiFileHeader.new_from_reader (ByteReader.new
      [0x4D, 0x54, 0x68, 0x64, 0x00, 0x00, 0x00, 0x06, 0x00, 0x01, 0x00, 0x00,
       0x00, 0x60]) =
      .ok ({ format := .MultiTrack, num_tracks := 0, division := 0 },
           { data := [0x4D, 0x54, 0x68, 0x64, 0x00, 0x00, 0x00, 0x06, 0x00, 0x01,
                      0x00, 0x00, 0x00, 0x60], pos := 12, len := 14 }) ∧
    MidiFileHeader.new_from_reader (ByteReader.new
      [0x4D, 0x54, 0x68, 0x64, 0x00, 0x00, 0x00, 0x06, 0x00, 0x00, 0x00, 0x02,
       0x00, 0x60]) = .error .InvalidNumOfTracks := by
  refine ⟨?_, ?_, by rfl, by rfl⟩
  · intro b4 b5 b6 b7 b8 b9 b10 b11 b12 b13 rest
    have e8 : byteAt (0x4D :: 0x54 :: 0x68 :: 0x64 :: b4 :: b5 :: b6 :: b7 :: b8 :: b9 ::
        b10 :: b11 :: b12 :: b13 :: rest) 8 = Outcome.ok (b8 % 256) := rfl
    have e9 : byteAt (0x4D :: 0x54 :: 0x68 :: 0x64 :: b4 :: b5 :: b6 :: b7 :: b8 :: b9 ::
        b10 :: b11 :: b12 :: b13 :: rest) 9 = Outcome.ok (b9 % 256) := rfl
    have e10 : byteAt (0x4D :: 0x54 :: 0x68 :: 0x64 :: b4 :: b5 :: b6 :: b7 :: b8 :: b9 ::
        b10 :: b11 :: b12 :: b13 :: rest) 10 = Outcome.ok (b10 % 256) := rfl
    have e11 : byteAt (0x4D :: 0x54 :: 0x68 :: 0x64 :: b4 :: b5 :: b6 :: b7 :: b8 :: b9 ::
        b10 :: b11 :: b12 :: b13 :: rest) 11 = Outcome.ok (b11 % 256) := rfl
    have e12 : byteAt (0x4D :: 0x54 :: 0x68 :: 0x64 :: b4 :: b5 :: b6 :: b7 :: b8 :: b9 ::
        b10 :: b11 :: b12 :: b13 :: rest) 12 = Outcome.ok (b12 % 256) := rfl
    have e13 : byteAt (0x4D :: 0x54 :: 0x68 :: 0x64 :: b4 :: b5 :: b6 :: b7 :: b8 :: b9 ::
        b10 :: b11 :: b12 :: b13 :: rest) 13 = Outcome.ok (b13 % 256) := rfl
    have hmagic : Outcome.ofExcept (α := Unit)
        (validate_header_chunk_bytes (u32be (0x4D % 256) (0x54 % 256) (0x68 % 256)
          (0x64 % 256))) = Outcome.ok () := by decide
    simp only [MetaData.new, e8, e9, e10, e11, e12, e13, Outcome.bind]
    simp only [show byteAt (0x4D :: 0x54 :: 0x68 :: 0x64 :: b4 :: b5 :: b6 :: b7 :: b8 :: b9 ::
        b10 :: b11 :: b12 :: b13 :: rest) 0 = Outcome.ok (0x4D % 256) from rfl,
      show byteAt (0x4D :: 0x54 :: 0x68 :: 0x64 :: b4 :: b5 :: b6 :: b7 :: b8 :: b9 ::
        b10 :: b11 :: b12 :: b13 :: rest) 1 = Outcome.ok (0x54 % 256) from rfl,
      show byteAt (0x4D :: 0x54 :: 0x68 :: 0x64 :: b4 :: b5 :: b6 :: b7 :: b8 :: b9 ::
        b10 :: b11 :: b12 :: b13 :: rest) 2 = Outcome.ok (0x68 % 256) from rfl,
      show byteAt (0x4D :: 0x54 :: 0x68 :: 0x64 :: b4 :: b5 :: b6 :: b7 :: b8 :: b9 ::
        b10 :: b11 :: b12 :: b13 :: rest) 3 = Outcome.ok (0x64 % 256) from rfl,
      Outcome.bind, hmagic]
    by_cases hnum : u16be (b10 % 256) (b11 % 256) = 0
    · simp [hnum]
    · simp only [hnum, if_false, ite_false, Outcome.bind, iff_false]
      split
      all_goals first
        | (simp [Outcome.bind]; done)
        | (rename_i heq
           intro hcontra
           split at heq <;> simp_all
           done)
        | (simp only [Outcome.bind]
           by_cases h128 : 128 ≤ b12 % 256
           · by_cases hz : b12 % 256 % 128 = 0
             · simp [h128, hz]
             · rw [if_pos h128, if_neg hz]
               cases hfps : validate_fps_byte (128 - b12 % 256 % 128) with
               | error a =>
                 have ha : a = .ParseError .InvalidFPS := by
                   unfold validate_fps_byte at hfps
                   split at hfps <;> simp_all
                 simp [Outcome.ofExcept, Outcome.bind, ha]
               | ok u => simp [Outcome.ofExcept, Outcome.bind]
           · rw [if_neg h128]
             simp [Outcome.bind])
  · intro b4 b5 b6 b7 b8 b9 b10 b11 b12 b13 rest md h
    have e8 : byteAt (0x4D :: 0x54 :: 0x68 :: 0x64 :: b4 :: b5 :: b6 :: b7 :: b8 :: b9 ::
        b10 :: b11 :: b12 :: b13 :: rest) 8 = Outcome.ok (b8 % 256) := rfl
    have e9 : byteAt (0x4D :: 0x54 :: 0x68 :: 0x64 :: b4 :: b5 :: b6 :: b7 :: b8 :: b9 ::
        b10 :: b11 :: b12 :: b13 :: rest) 9 = Outcome.ok (b9 % 256) := rfl
    have e10 : byteAt (0x4D :: 0x54 :: 0x68 :: 0x64 :: b4 :: b5 :: b6 :: b7 :: b8 :: b9 ::
        b10 :: b11 :: b12 :: b13 :: rest) 10 = Outcome.ok (b10 % 256) := rfl
    have e11 : byteAt (0x4D :: 0x54 :: 0x68 :: 0x64 :: b4 :: b5 :: b6 :: b7 :: b8 :: b9 ::
        b10 :: b11 :: b12 :: b13 :: rest) 11 = Outcome.ok (b11 % 256) := rfl
    have e12 : byteAt (0x4D :: 0x54 :: 0x68 :: 0x64 :: b4 :: b5 :: b6 :: b7 :: b8 :: b9 ::
        b10 :: b11 :: b12 :: b13 :: rest) 12 = Outcome.ok (b12 % 256) := rfl
    have e13 : byteAt (0x4D :: 0x54 :: 0x68 :: 0x64 :: b4 :: b5 :: b6 :: b7 :: b8 :: b9 ::
        b10 :: b11 :: b12 :: b13 :: rest) 13 = Outcome.ok (b13 % 256) := rfl
    have hmagic : Outcome.ofExcept (α := Unit)
        (validate_header_chunk_bytes (u32be (0x4D % 256) (0x54 % 256) (0x68 % 256)
          (0x64 % 256))) = Outcome.ok () := by decide
    simp only [MetaData.new, e8, e9, e10, e11, e12, e13, Outcome.bind,
      show byteAt (0x4D :: 0x54 :: 0x68 :: 0x64 :: b4 :: b5 :: b6 :: b7 :: b8 :: b9 ::
        b10 :: b11 :: b12 :: b13 :: rest) 0 = Outcome.ok (0x4D % 256) from rfl,
      show byteAt (0x4D :: 0x54 :: 0x68 :: 0x64 :: b4 :: b5 :: b6 :: b7 :: b8 :: b9 ::
        b10 :: b11 :: b12 :: b13 :: rest) 1 = Outcome.ok (0x54 % 256) from rfl,
      show byteAt (0x4D :: 0x54 :: 0x68 :: 0x64 :: b4 :: b5 :: b6 :: b7 :: b8 :: b9 ::
        b10 :: b11 :: b12 :: b13 :: rest) 2 = Outcome.ok (0x68 % 256) from rfl,
      show byteAt (0x4D :: 0x54 :: 0x68 :: 0x64 :: b4 :: b5 :: b6 :: b7 :: b8 :: b9 ::
        b10 :: b11 :: b12 :: b13 :: rest) 3 = Outcome.ok (0x64 % 256) from rfl,
      hmagic] at h
    by_cases hnum : u16be (b10 % 256) (b11 % 256) = 0
    · simp [hnum] at h
    · simp only [hnum, if_false, ite_false, Outcome.bind] at h
      split at h
      · simp at h
      · simp at h
      · simp at h
      · repeat' split at h
        all_goals simp [Outcome.ofExcept] at h
        all_goals rw [← h]

/-- Claim C8 witness: the `MetaData::new` characterisation applied to a
concrete format-1 header with track count 0 (rejected) and to one with track
count 513 (accepted verbatim). -/
theorem C8_invalid_num_of_tracks_characterization_witness :
    MetaData.new [0x4D, 0x54, 0x68, 0x64, 0x00, 0x00, 0x00, 0x06,
        0x00, 0x01, 0x00, 0x00, 0x00, 0x60] =
      .error (.ParseError .InvalidNumOfTracks) ∧
    (MetaData.new [0x4D, 0x54, 0x68, 0x64, 0x00, 0x00, 0x00, 0x06,
        0x00, 0x01, 0x02, 0x01, 0x00, 0x60] = .ok
      { num_of_tracks := 513, file_format := .MULTI_TRACK,
        time_division := .PulsesPerQuarterNote 96 } →
      (513 : Nat) = u16be (0x02 % 256) (0x01 % 256)) := by
  constructor
  · exact (C8_invalid_num_of_tracks_characterization.1 0x00 0x00 0x00 0x06
      0x00 0x01 0x00 0x00 0x00 0x60 []).2 (by decide)
  · intro hparse
    exact C8_invalid_num_of_tracks_characterization.2.1 0x00 0x00 0x00 0x06
      0x00 0x01 0x02 0x01 0x00 0x60 []
      { num_of_tracks := 513, file_format := .MULTI_TRACK,
        time_division := .PulsesPerQuarterNote 96 } hparse

/-- Embedding of `durOk` is preserved by sequencing when every continuation satisfies it. -/
theorem durOk_bind {α : Type} (td : TimeDivision) (tempo : Nat) (x : Outcome α)
    (f : α → Outcome MidiEvent) (h : ∀ a, durOk td tempo (f a)) :
    durOk td tempo (x.bind f) := by
  cases x with
  | ok v => exact h v
  | panicked => trivial
  | diverged => trivial
  | error e => trivial

/-- Every event produced by `parse_event` stores the duration computed from
its own delta-time at the division and tempo it was called with. -/
theorem parse_event_durOk (status_byte : Nat) (data : List Nat) (delta_time : Nat)
    (td : TimeDivision) (tempo : Nat) :
    durOk td tempo (parse_event status_byte data delta_time td tempo) := by
  unfold parse_event parse_meta_event NoteOnEvent.from_bytes NoteOffEvent.from_bytes
    PolyphonicKeyPressureEvent.from_bytes ControlChangeEvent.from_bytes
    ProgramChangeEvent.from_bytes ChannelPressureEvent.from_bytes
    PitchBendChangeEvent.from_bytes SequenceNumber.from_bytes TextEvent.from_bytes
    CopyRightNoticeEvent.from_bytes TrackNameEvent.from_bytes
    InstrumentNameEvent.from_bytes LyricEvent.from_bytes MarkerEvent.from_bytes
    CuePointEvent.from_bytes MidiChannelPrefixEvent.from_bytes
    MidiPortEvent.from_bytes EndOfTrack.from_bytes SetTempoEvent.from_bytes
    SMPTEOffsetEvent.from_bytes TimeSignatureEvent.from_bytes
    KeySignatureEvent.from_bytes SequencerSpecificEvent.from_bytes
    parse_text_payload
  repeat' first
    | (apply durOk_bind _ _ _ _; intro _)
    | split
  all_goals simp [durOk, MidiEvent.get_time_duration, MidiEvent.get_delta_time]

/-- Every event produced by the running-status path stores the duration
computed from its own delta-time at the division and tempo in use (the
control-change path hardcodes delta 0 and computes the duration from 0). -/
theorem parse_running_status_data_durOk (running_status channel : Nat)
    (data : List Nat) (delta_time : Nat) (td : TimeDivision) (tempo : Nat) :
    durOk td tempo (parse_running_status_data running_status channel data
      delta_time td tempo) := by
  unfold parse_running_status_data NoteOnEvent.new_from_status
    ControlChangeEvent.new_from_status
  repeat' first
    | (apply durOk_bind _ _ _ _; intro _)
    | split
  all_goals simp [durOk, MidiEvent.get_time_duration, MidiEvent.get_delta_time]

/-- The tokenizer loop only appends events satisfying the duration formula at
the division and tempo in use. -/
theorem eventLoop_duration (td : TimeDivision) (tempo : Nat) (data : List Nat)
    (size : Nat) :
    ∀ (fuel pos rs ch : Nat) (evs out : List MidiEvent),
      (∀ e ∈ evs, e.get_time_duration =
        calculate_time_duration e.get_delta_time td tempo) →
      Track.eventLoop td tempo data size fuel pos rs ch evs = .ok out →
      ∀ e ∈ out, e.get_time_duration =
        calculate_time_duration e.get_delta_time td tempo := by
  intro fuel
  induction fuel with
  | zero =>
    intro pos rs ch evs out hevs h
    simp only [Track.eventLoop] at h
    exact absurd h (by simp)
  | succ fuel ih =>
    intro pos rs ch evs out hevs h
    rw [Track.eventLoop] at h
    by_cases hp : pos < size
    · rw [if_pos hp] at h
      simp only [Outcome.bind_eq_ok] at h
      obtain ⟨b, hb, h⟩ := h
      obtain ⟨cond, hcond, h⟩ := h
      split at h
      · simp only [Outcome.bind_eq_ok] at h
        obtain ⟨ev, hev, h⟩ := h
        have hP := parse_running_status_data_durOk rs ch data
          (from_bytes_to_vlq (data.drop pos)).1 td tempo
        rw [hev] at hP
        refine ih _ _ _ _ _ ?_ h
        intro e he
        rcases List.mem_append.mp he with he | he
        · exact hevs e he
        · rcases List.mem_singleton.mp he with rfl
          exact hP
      · simp only [Outcome.bind_eq_ok] at h
        obtain ⟨ev, hev, h⟩ := h
        have hP := parse_event_durOk b (data.drop (pos +
          (from_bytes_to_vlq (data.drop pos)).2))
          (from_bytes_to_vlq (data.drop pos)).1 td tempo
        rw [hev] at hP
        refine ih _ _ _ _ _ ?_ h
        intro e he
        rcases List.mem_append.mp he with he | he
        · exact hevs e he
        · rcases List.mem_singleton.mp he with rfl
          exact hP
    · rw [if_neg hp] at h
      simp only [Outcome.ok.injEq] at h
      subst h
      exact hevs

/-- Structure of a successful `Track::new`: the returned tempo and time
signature are exactly the inputs, and the events come from running the
tokenizer loop over some payload with the returned declared size. -/
theorem Track_new_inv {data : List Nat} {td : TimeDivision} {tempo : Nat}
    {ts : TimeSignature} {r : Track × Nat × TimeSignature}
    (h : Track.new data td tempo ts = .ok r) :
    r.2.1 = tempo ∧ r.2.2 = ts ∧
    ∃ payload : List Nat,
      Track.eventLoop td tempo payload r.1.track_size (r.1.track_size + 1)
        0 0 0 [] = .ok r.1.events := by
  unfold Track.new at h
  simp only [Outcome.bind_eq_ok, Outcome.ofExcept_eq_ok] at h
  obtain ⟨b0, hb0, b1, hb1, b2, hb2, b3, hb3, u, hu, b4, hb4, b5, hb5, b6, hb6,
    b7, hb7, payload, hpay, events, hloop, hfin⟩ := h
  simp only [Outcome.ok.injEq] at hfin
  subst hfin
  exact ⟨rfl, rfl, payload, hloop⟩

/-- The track-list loop at tempo 120 only produces tracks whose event
durations follow the fixed `PulsesPerQuarterNote 96` / 120 BPM formula. -/
theorem trackListLoop_duration (data : List Nat) :
    ∀ (fuel pos : Nat) (ts : TimeSignature) (acc out : List Track),
      (∀ t ∈ acc, ∀ e ∈ t.events, e.get_time_duration =
        calculate_time_duration e.get_delta_time (.PulsesPerQuarterNote 96) 120) →
      Track.trackListLoop data fuel pos 120 ts acc = .ok out →
      ∀ t ∈ out, ∀ e ∈ t.events, e.get_time_duration =
        calculate_time_duration e.get_delta_time (.PulsesPerQuarterNote 96) 120 := by
  intro fuel
  induction fuel with
  | zero =>
    intro pos ts acc out hacc h
    simp only [Track.trackListLoop] at h
    exact absurd h (by simp)
  | succ fuel ih =>
    intro pos ts acc out hacc h
    rw [Track.trackListLoop] at h
    by_cases hp : pos < data.length
    · rw [if_pos hp] at h
      simp only [Outcome.bind_eq_ok] at h
      obtain ⟨r, hr, h⟩ := h
      obtain ⟨htempo, hts, payload, hloop⟩ := Track_new_inv hr
      have hdur := eventLoop_duration (.PulsesPerQuarterNote 96) 120 payload
        r.1.track_size (r.1.track_size + 1) 0 0 0 [] r.1.events
        (by intro e he; exact absurd he (List.not_mem_nil e)) hloop
      rw [htempo, hts] at h
      refine ih _ _ _ _ ?_ h
      intro t ht
      rcases List.mem_append.mp ht with ht | ht
      · exact hacc t ht
      · rcases List.mem_singleton.mp ht with rfl
        exact hdur
    · rw [if_neg hp] at h
      simp only [Outcome.ok.injEq] at h
      subst h
      exact hacc

/-- Claim C10: `Track::get_track_list` computes every event duration with the
time division fixed at `PulsesPerQuarterNote 96` and initial tempo 120,
regardless of the division parsed from the file header; consequently two
files differing only in their header division bytes (bytes 12-13) that both
parse successfully yield identical track lists, durations included. -/
theorem C10_durations_independent_of_division :
    (∀ (data : List Nat) (tracks : List Track),
      Track.get_track_list data = .ok tracks →
      ∀ t ∈ tracks, ∀ e ∈ t.events, e.get_time_duration =
        calculate_time_duration e.get_delta_time (.PulsesPerQuarterNote 96) 120) ∧
    (∀ (c1 c2 : List Nat) (m1 m2 : Midi),
      c1.take 12 = c2.take 12 → c1.drop 14 = c2.drop 14 →
      Midi.new c1 = .ok m1 → Midi.new c2 = .ok m2 →
      m1.track_list = m2.track_list) := by
  constructor
  · intro data tracks h
    exact trackListLoop_duration data (data.length + 1) 0
      { numerator := 4, denominator := 4 } [] tracks
      (by intro t ht; exact absurd ht (List.not_mem_nil t)) h
  · intro c1 c2 m1 m2 _ hdrop h1 h2
    unfold Midi.new at h1 h2
    simp only [Outcome.bind_eq_ok] at h1 h2
    obtain ⟨hd1, hhd1, md1, hmd1, tl1, htl1, hfin1⟩ := h1
    obtain ⟨hd2, hhd2, md2, hmd2, tl2, htl2, hfin2⟩ := h2
    simp only [Outcome.ok.injEq] at hfin1 hfin2
    subst hfin1
    subst hfin2
    simp only []
    rw [hdrop] at htl1
    rw [htl1] at htl2
    simp only [Outcome.ok.injEq] at htl2
    rw [htl2]

/-- Claim C10 witness: two minimal single-track files, one with division
`00 60` (PPQN 96) and one with SMPTE division `E8 02`, parse to `Midi` values
whose track lists — durations included — coincide. -/
theorem C10_durations_independent_of_division_witness :
    ({ meta_data := { num_of_tracks := 1, file_format := .SINGLE_TRACK, time_division := .PulsesPerQuarterNote 96 },
       tempo := 120,
       time_signature := { numerator := 4, denominator := 4 },
       track_list := [{ events := [.endOfTrackEvent 3 0 { num := 0, den := 96000000 }], track_size := 4 }] } : Midi).track_list =
    ({ meta_data := { num_of_tracks := 1, file_format := .SINGLE_TRACK, time_division := .SMPTE 24 2 },
       tempo := 120,
       time_signature := { numerator := 4, denominator := 4 },
       track_list := [{ events := [.endOfTrackEvent 3 0 { num := 0, den := 96000000 }], track_size := 4 }] } : Midi).track_list :=
  C10_durations_independent_of_division.2
    [0x4D, 0x54, 0x68, 0x64, 0x00, 0x00, 0x00, 0x06, 0x00, 0x00, 0x00, 0x01,
     0x00, 0x60, 0x4D, 0x54, 0x72, 0x6B, 0x00, 0x00, 0x00, 0x04, 0x00, 0xFF,
     0x2F, 0x00]
    [0x4D, 0x54, 0x68, 0x64, 0x00, 0x00, 0x00, 0x06, 0x00, 0x00, 0x00, 0x01,
     0xE8, 0x02, 0x4D, 0x54, 0x72, 0x6B, 0x00, 0x00, 0x00, 0x04, 0x00, 0xFF,
     0x2F, 0x00]
    _ _ (by decide) (by decide) (by decide) (by decide)
